import Mathlib

/-!
Verification development for the wp-pilot provisioning orchestrator.

The TypeScript sources are shallowly embedded:
* `src/lib/validation.ts`: `normalizeDomain`, `isValidDomain`, `parsePhpVersion`
  (regexes are translated into decidable character-list predicates).
* `src/lib/wordpress.ts`: `generatePassword` (crypto.randomBytes + base64url +
  slice), `sanitizeDbName`, `shellEscape`, `commandErrorOutput`,
  `runCheckedCommand` and the whole `installWordPress` stage program.
* `src/lib/ssh.ts` (defensive variant): the `createSSHConnection` promise
  machinery as an event-driven state machine.
* `src/app/api/install/route.ts` (defensive variant): the SSE stream `start`
  body, including its catch/finally behaviour.

Remote command execution is modelled by a `Host` function mapping the index of
the invocation and the command text to the outcome the ssh layer reports
(a resolved {stdout, stderr, code} triple, or a rejection message covering both
stream errors and command timeouts).  The monad `M` threads the trace of
emitted progress events and issued commands and an `Except String` result, so a
thrown error short-circuits exactly as a rejected promise does in the source.
Randomness is modelled by a supply `rng : Nat → List Nat`: the k-th call of
`crypto.randomBytes` in program order reads `rng k`.
-/

set_option autoImplicit false

/-- The fixed stage vocabulary the orchestrator emits below route level. -/
def stageSteps : List String :=
  ["system-update", "nginx", "database", "php", "db-config", "wordpress",
   "wp-config", "nginx-config", "wp-install", "security", "ssl", "complete"]

/-- JS `String.prototype.trim` whitespace test, restricted to the whitespace
characters that actually occur in this code base. -/
def isJsSpace (c : Char) : Bool :=
  c = ' ' || c = '\t' || c = '\n' || c = '\r'

/-- Character-list version of JS `trim`. -/
def trimData (l : List Char) : List Char :=
  ((l.dropWhile isJsSpace).reverse.dropWhile isJsSpace).reverse

/-- JS `value.trim()`. -/
def sTrim (s : String) : String :=
  String.mk (trimData s.data)

/-- JS `value.toLowerCase()` (ASCII, which is all this code base feeds it). -/
def sLower (s : String) : String :=
  String.mk (s.data.map Char.toLower)

/-- JS `value.slice(0, n)` for a nonnegative `n`. -/
def sliceN (s : String) (n : Nat) : String :=
  String.mk (s.data.take n)

/-- Does `p` occur at the head of `l`? -/
def listStartsWith : List Char → List Char → Bool
  | [], _ => true
  | _ :: _, [] => false
  | p :: ps, c :: cs => p = c && listStartsWith ps cs

/-- `replace(/^https?:\/\//i, '')` applied to an already lowercased list. -/
def stripHttp (l : List Char) : List Char :=
  if listStartsWith "https://".data l then l.drop 8
  else if listStartsWith "http://".data l then l.drop 7
  else l

/-- `replace(/\/.+$/, '')`: cut from the leftmost `/` that still has at least
one character after it. -/
def stripPathPart : List Char → List Char
  | [] => []
  | c :: cs => if c = '/' && !cs.isEmpty then [] else c :: stripPathPart cs

/-- `replace(/\.$/, '')`: drop a single trailing dot. -/
def stripEndDot (l : List Char) : List Char :=
  match l.getLast? with
  | some c => if c = '.' then l.dropLast else l
  | none => l

/-- `normalizeDomain` from `src/lib/validation.ts` (string input case). -/
def normalizeDomain (value : String) : String :=
  String.mk (stripEndDot (stripPathPart (stripHttp ((trimData value.data).map Char.toLower))))

/-- `[a-z0-9]`. -/
def isLowerDigit (c : Char) : Bool :=
  ('a' ≤ c && c ≤ 'z') || ('0' ≤ c && c ≤ '9')

/-- `[a-z0-9-]`. -/
def isLabelChar (c : Char) : Bool :=
  isLowerDigit c || c = '-'

/-- Split a character list at every dot, like the `.`-separated groups the
domain regex walks over. -/
def splitDot : List Char → List (List Char)
  | [] => [[]]
  | c :: cs =>
    if c = '.' then [] :: splitDot cs
    else
      match splitDot cs with
      | [] => [[c]]
      | g :: gs => (c :: g) :: gs

/-- One non-final domain label: `[a-z0-9](?:[a-z0-9-]{0,61}[a-z0-9])?`. -/
def isLabel (l : List Char) : Bool :=
  match l, l.reverse with
  | c :: _, lastc :: _ =>
    isLowerDigit c && isLowerDigit lastc && ((l.drop 1).dropLast.all isLabelChar)
      && decide (l.length ≤ 63)
  | _, _ => false

/-- The final label: `[a-z]{2,63}`. -/
def isTld (l : List Char) : Bool :=
  decide (2 ≤ l.length) && decide (l.length ≤ 63) && l.all (fun c => 'a' ≤ c && c ≤ 'z')

/-- `isValidDomain` from `src/lib/validation.ts`:
`^(?=.{1,253}$)(?:[a-z0-9](?:[a-z0-9-]{0,61}[a-z0-9])?\.)+[a-z]{2,63}$`. -/
def isValidDomain (s : String) : Bool :=
  decide (1 ≤ s.data.length) && decide (s.data.length ≤ 253) &&
    (match (splitDot s.data).reverse with
     | tld :: labs => !labs.isEmpty && labs.all isLabel && isTld tld
     | [] => false)

/-- The `SUPPORTED_PHP_VERSIONS` constant. -/
def supportedPhpVersions : List String := ["8.1", "8.2", "8.3", "8.4"]

/-- `parsePhpVersion` from `src/lib/validation.ts` (string input case; the
empty string plays the role of an absent value and yields the `'8.3'`
default). -/
def parsePhpVersion (value : String) : Option String :=
  if value = "" then some "8.3"
  else
    let candidate := sTrim value
    if supportedPhpVersions.contains candidate then some candidate else none

/-- `[a-zA-Z0-9]`. -/
def isAlnum (c : Char) : Bool :=
  ('a' ≤ c && c ≤ 'z') || ('A' ≤ c && c ≤ 'Z') || ('0' ≤ c && c ≤ '9')

/-- `sanitizeDbName` from `src/lib/wordpress.ts`: map every other character to
an underscore, strip leading underscores, keep at most 28 characters. -/
def sanitizeDbName (domain : String) : String :=
  String.mk (((domain.data.map (fun c => if isAlnum c then c else '_')).dropWhile
    (fun c => c = '_')).take 28)

/-- The single-quote character, kept out of literal position. -/
def quoteChar : Char := Char.ofNat 39

/-- What JS `value.replace(/'/g, `'"'"'`)` substitutes for each quote. -/
def quoteReplacement : List Char := "'\"'\"'".data

/-- The quote-replacing scan inside `shellEscape`. -/
def escQuotes : List Char → List Char
  | [] => []
  | c :: cs => if c = quoteChar then quoteReplacement ++ escQuotes cs else c :: escQuotes cs

/-- `shellEscape` from `src/lib/wordpress.ts`. -/
def shellEscape (value : String) : String :=
  "'" ++ String.mk (escQuotes value.data) ++ "'"

/-- The base64url alphabet in the order `Buffer.toString('base64url')` uses. -/
def b64Alphabet : List Char :=
  "ABCDEFGHIJKLMNOPQRSTUVWXYZabcdefghijklmnopqrstuvwxyz0123456789-_".data

/-- The character for one 6-bit group. -/
def b64urlChar (d : Nat) : Char :=
  b64Alphabet.getD d 'A'

/-- The 6-bit groups of a byte list, exactly as base64 (no padding characters,
as node's `base64url` omits them). -/
def b64Groups : List Nat → List Nat
  | [] => []
  | [b1] => [b1 / 4, b1 % 4 * 16]
  | [b1, b2] => [b1 / 4, b1 % 4 * 16 + b2 / 16, b2 % 16 * 4]
  | b1 :: b2 :: b3 :: rest =>
    b1 / 4 :: (b1 % 4 * 16 + b2 / 16) :: (b2 % 16 * 4 + b3 / 64) :: b3 % 64 :: b64Groups rest

/-- `generatePassword` from `src/lib/wordpress.ts`:
`crypto.randomBytes(length).toString('base64url').slice(0, length)`.
`bytes` stands for the random bytes the call consumed; `randomBytes(length)`
returns exactly `length` of them, hence the `take`. -/
def generatePassword (length : Nat) (bytes : List Nat) : String :=
  String.mk (((b64Groups (bytes.take length)).map b64urlChar).take length)

/-- Inverse of the 6-bit grouping on full 4-digit blocks. -/
def b64Degroup : List Nat → List Nat
  | d1 :: d2 :: d3 :: d4 :: rest =>
    (d1 * 4 + d2 / 16) :: (d2 % 16 * 16 + d3 / 4) :: (d3 % 4 * 64 + d4) :: b64Degroup rest
  | _ => []

theorem b64Degroup_groups : ∀ (xs : List Nat), (∀ b ∈ xs, b < 256) →
    xs.length % 3 = 0 → b64Degroup (b64Groups xs) = xs := by
  intro xs
  induction xs using b64Groups.induct with
  | case1 => intro _ _; rfl
  | case2 b1 => intro _ h; simp at h
  | case3 b1 b2 => intro _ h; simp at h
  | case4 b1 b2 b3 rest ih =>
    intro hmem hlen
    have h1 : b1 < 256 := hmem b1 (by simp)
    have h2 : b2 < 256 := hmem b2 (by simp)
    have h3 : b3 < 256 := hmem b3 (by simp)
    have hrest : rest.length % 3 = 0 := by
      simp [List.length_cons] at hlen; omega
    have ihr := ih (fun b hb => hmem b (by simp [hb])) hrest
    simp only [b64Groups, b64Degroup, ihr, List.cons.injEq, and_true]
    refine ⟨?_, ?_, ?_⟩ <;> omega

theorem b64Groups_length_of_mod3 : ∀ (xs : List Nat), xs.length % 3 = 0 →
    (b64Groups xs).length = 4 * (xs.length / 3) := by
  intro xs
  induction xs using b64Groups.induct with
  | case1 => intro _; rfl
  | case2 b1 => intro h; simp at h
  | case3 b1 b2 => intro h; simp at h
  | case4 b1 b2 b3 rest ih =>
    intro hlen
    have hrest : rest.length % 3 = 0 := by
      simp [List.length_cons] at hlen; omega
    simp only [b64Groups, List.length_cons, ih hrest]
    omega

theorem b64Groups_length_ge : ∀ (xs : List Nat), xs.length ≤ (b64Groups xs).length := by
  intro xs
  induction xs using b64Groups.induct with
  | case1 => simp [b64Groups]
  | case2 b1 => simp [b64Groups]
  | case3 b1 b2 => simp [b64Groups]
  | case4 b1 b2 b3 rest ih => simp only [b64Groups, List.length_cons]; omega

theorem b64Groups_append : ∀ (k : Nat) (xs ys : List Nat), xs.length = 3 * k →
    b64Groups (xs ++ ys) = b64Groups xs ++ b64Groups ys := by
  intro k
  induction k with
  | zero =>
    intro xs ys h
    have : xs = [] := List.eq_nil_of_length_eq_zero (by omega)
    simp [this, b64Groups]
  | succ n ih =>
    intro xs ys h
    match xs with
    | [] => simp at h
    | [b1] => simp at h; omega
    | [b1, b2] => simp at h; omega
    | b1 :: b2 :: b3 :: rest =>
      have hrest : rest.length = 3 * n := by simp at h; omega
      simp only [List.cons_append, b64Groups, List.append_eq, ih rest ys hrest]

theorem b64Groups_lt64 : ∀ (xs : List Nat), (∀ b ∈ xs, b < 256) →
    ∀ d ∈ b64Groups xs, d < 64 := by
  intro xs
  induction xs using b64Groups.induct with
  | case1 => intro _ d hd; simp [b64Groups] at hd
  | case2 b1 =>
    intro hmem d hd
    have h1 : b1 < 256 := hmem b1 (by simp)
    simp [b64Groups] at hd
    rcases hd with h | h <;> omega
  | case3 b1 b2 =>
    intro hmem d hd
    have h1 : b1 < 256 := hmem b1 (by simp)
    have h2 : b2 < 256 := hmem b2 (by simp)
    simp [b64Groups] at hd
    rcases hd with h | h | h <;> omega
  | case4 b1 b2 b3 rest ih =>
    intro hmem d hd
    have h1 : b1 < 256 := hmem b1 (by simp)
    have h2 : b2 < 256 := hmem b2 (by simp)
    have h3 : b3 < 256 := hmem b3 (by simp)
    simp only [b64Groups, List.mem_cons] at hd
    rcases hd with h | h | h | h | h
    · omega
    · omega
    · omega
    · omega
    · exact ih (fun b hb => hmem b (by simp [hb])) d h

theorem b64urlChar_mem (d : Nat) : b64urlChar d ∈ b64Alphabet := by
  by_cases h : d < b64Alphabet.length
  · simp only [b64urlChar, List.getD_eq_getElem?_getD, List.getElem?_eq_getElem h,
      Option.getD_some]
    exact List.getElem_mem h
  · simp [b64urlChar, List.getD_eq_getElem?_getD, List.getElem?_eq_none (le_of_not_lt h)]
    decide

theorem b64urlChar_injOn : ∀ a < 64, ∀ b < 64, b64urlChar a = b64urlChar b → a = b := by
  decide

theorem map_b64urlChar_inj : ∀ (ds es : List Nat), (∀ d ∈ ds, d < 64) → (∀ e ∈ es, e < 64) →
    ds.map b64urlChar = es.map b64urlChar → ds = es := by
  intro ds
  induction ds with
  | nil => intro es _ _ h; cases es with
    | nil => rfl
    | cons e es => simp at h
  | cons d ds ih =>
    intro es hds hes h
    cases es with
    | nil => simp at h
    | cons e es =>
      simp only [List.map_cons, List.cons.injEq] at h
      have hd : d < 64 := hds d (by simp)
      have he : e < 64 := hes e (by simp)
      have : d = e := b64urlChar_injOn d hd e he h.1
      have : ds = es := ih es (fun x hx => hds x (by simp [hx])) (fun x hx => hes x (by simp [hx])) h.2
      simp_all

/-- For a byte count `n` divisible by 4, the first `n` password characters are
exactly the encoding of the first `3 * (n / 4)` bytes. -/
theorem generatePassword_eq_encode_take (n : Nat) (bytes : List Nat)
    (hn : n % 4 = 0) (hlen : bytes.length = n) :
    generatePassword n bytes =
      String.mk ((b64Groups (bytes.take (3 * (n / 4)))).map b64urlChar) := by
  have htake : bytes.take n = bytes := by
    rw [← hlen]; simp
  have hlen34 : (bytes.take (3 * (n / 4))).length = 3 * (n / 4) := by
    rw [List.length_take, hlen]; omega
  have hglen' : (b64Groups (bytes.take (3 * (n / 4)))).length = n := by
    have h0 := b64Groups_length_of_mod3 (bytes.take (3 * (n / 4))) (by rw [hlen34]; omega)
    rw [hlen34] at h0
    omega
  have hmlen : ((b64Groups (bytes.take (3 * (n / 4)))).map b64urlChar).length = n := by
    rw [List.length_map, hglen']
  unfold generatePassword
  rw [htake]
  conv_lhs => rw [show bytes = bytes.take (3 * (n / 4)) ++ bytes.drop (3 * (n / 4)) from
    (List.take_append_drop _ _).symm]
  rw [b64Groups_append (n / 4) _ _ hlen34]
  rw [List.map_append, List.take_append_eq_append_take, List.length_map, hglen']
  rw [Nat.sub_self, List.take_zero, List.append_nil,
    List.take_of_length_le (le_of_eq hmlen)]

theorem generatePassword_take_inj (n : Nat) (xs ys : List Nat)
    (hn : n % 4 = 0)
    (hx : xs.length = n) (hy : ys.length = n)
    (hxb : ∀ b ∈ xs, b < 256) (hyb : ∀ b ∈ ys, b < 256)
    (h : generatePassword n xs = generatePassword n ys) :
    xs.take (3 * (n / 4)) = ys.take (3 * (n / 4)) := by
  rw [generatePassword_eq_encode_take n xs hn hx,
    generatePassword_eq_encode_take n ys hn hy] at h
  have hmaps : (b64Groups (xs.take (3 * (n / 4)))).map b64urlChar =
      (b64Groups (ys.take (3 * (n / 4)))).map b64urlChar := by
    have := congrArg String.data h
    simpa using this
  have hxb' : ∀ b ∈ xs.take (3 * (n / 4)), b < 256 :=
    fun b hb => hxb b (List.mem_of_mem_take hb)
  have hyb' : ∀ b ∈ ys.take (3 * (n / 4)), b < 256 :=
    fun b hb => hyb b (List.mem_of_mem_take hb)
  have hg : b64Groups (xs.take (3 * (n / 4))) = b64Groups (ys.take (3 * (n / 4))) :=
    map_b64urlChar_inj _ _ (b64Groups_lt64 _ hxb') (b64Groups_lt64 _ hyb') hmaps
  have hxl : (xs.take (3 * (n / 4))).length % 3 = 0 := by
    rw [List.length_take, hx]; omega
  have hyl : (ys.take (3 * (n / 4))).length % 3 = 0 := by
    rw [List.length_take, hy]; omega
  calc xs.take (3 * (n / 4)) = b64Degroup (b64Groups (xs.take (3 * (n / 4)))) :=
        (b64Degroup_groups _ hxb' hxl).symm
    _ = b64Degroup (b64Groups (ys.take (3 * (n / 4)))) := by rw [hg]
    _ = ys.take (3 * (n / 4)) := b64Degroup_groups _ hyb' hyl

/-- One progress record as `onProgress` / `sendEvent` serialises it:
`{step, status, message, details?}`. -/
structure Event where
  step : String
  status : String
  message : String
  details : Option String
deriving DecidableEq, Repr

/-- The `{stdout, stderr, code}` triple `execCommand` resolves with (both
streams already trimmed by the ssh layer). -/
structure CommandResult where
  stdout : String
  stderr : String
  code : Nat
deriving DecidableEq, Repr

/-- What the ssh layer reports for one command invocation: a resolved result,
or a rejection (stream error or `Command timed out after …`). -/
inductive ExecOutcome where
  | ok (stdout stderr : String) (code : Nat)
  | thrown (msg : String)
deriving DecidableEq, Repr

/-- A remote host: the outcome of the `i`-th command invocation of the run,
given the command text. -/
def Host : Type := Nat → String → ExecOutcome

/-- The observable trace of one run: progress events and issued commands, both
in order. -/
structure Trace where
  events : List Event
  cmds : List String
deriving DecidableEq, Repr

/-- The run monad: state-threaded trace plus `Except`-style propagation of a
thrown error, mirroring promise rejection in the source. -/
def M (α : Type) : Type := Trace → Except String α × Trace

instance : Monad M where
  pure a := fun t => (Except.ok a, t)
  bind m k := fun t =>
    match m t with
    | (Except.ok a, t') => k a t'
    | (Except.error e, t') => (Except.error e, t')

theorem M_bind_apply {α β : Type} (m : M α) (k : α → M β) (t : Trace) :
    (m >>= k) t =
      match m t with
      | (Except.ok a, t') => k a t'
      | (Except.error e, t') => (Except.error e, t') := rfl

theorem M_pure_apply {α : Type} (a : α) (t : Trace) :
    (pure a : M α) t = (Except.ok a, t) := rfl

/-- `throw new Error(msg)` (and promise rejection) in the run monad. -/
def throwM {α : Type} (e : String) : M α := fun t => (Except.error e, t)

/-- `try { … } catch (error) { … }`. -/
def tryCatchM {α : Type} (m : M α) (h : String → M α) : M α := fun t =>
  match m t with
  | (Except.ok a, t') => (Except.ok a, t')
  | (Except.error e, t') => h e t'

/-- `onProgress(step, status, message, details?)`. -/
def emit (step status message : String) (details : Option String) : M Unit := fun t =>
  (Except.ok (), { t with events := t.events ++ [⟨step, status, message, details⟩] })

/-- `execCommandWithTimeout` from `src/lib/ssh.ts`: issues the command, then
either resolves with the trimmed output streams and the exit code or rejects;
the timeout parameter bounds the wait but the outcome (including a timeout
rejection) is the host's. -/
def execCommandWithTimeout (host : Host) (cmd : String) (timeoutMs : Nat) :
    M CommandResult := fun t =>
  match host t.cmds.length cmd with
  | ExecOutcome.ok out err code =>
    (Except.ok ⟨sTrim out, sTrim err, code⟩, { t with cmds := t.cmds ++ [cmd] })
  | ExecOutcome.thrown msg =>
    (Except.error msg, { t with cmds := t.cmds ++ [cmd] })

/-- `commandErrorOutput` from `src/lib/wordpress.ts`:
`(result.stderr || result.stdout || 'exit code N').trim()`. -/
def commandErrorOutput (r : CommandResult) : String :=
  sTrim (if r.stderr ≠ "" then r.stderr else if r.stdout ≠ "" then r.stdout
    else "exit code " ++ toString r.code)

/-- `runCheckedCommand` from `src/lib/wordpress.ts`. -/
def runCheckedCommand (host : Host) (cmd context : String) (timeoutMs : Nat) :
    M CommandResult := do
  let r ← execCommandWithTimeout host cmd timeoutMs
  if r.code ≠ 0 then throwM (context ++ ": " ++ commandErrorOutput r)
  else pure r

/-- `SiteConfig` from `src/types/index.ts`. -/
structure SiteConfig where
  domain : String
  siteTitle : String
  adminUser : String
  adminEmail : String
  enableSSL : Bool
  phpVersion : String
deriving DecidableEq, Repr

/-- The result record `installWordPress` resolves with (`error` is `none` on
the success path, where the TS object has no `error` property). -/
structure InstallResult where
  success : Bool
  sslInstalled : Bool
  adminPassword : String
  dbName : String
  dbUser : String
  dbPassword : String
  error : Option String
deriving DecidableEq, Repr

/-- The local bindings `installWordPress` computes before its `try` block. -/
structure Derived where
  domain : String
  phpVersion : String
  dbName : String
  dbUser : String
  dbPassword : String
  adminPassword : String
  siteTitle : String
  adminUser : String
  adminEmail : String
  wpDir : String
  wpDirArg : String
  wpConfigPathArg : String
  effectiveSshPort : Nat
deriving DecidableEq, Repr

/-- Lines 71-84 of `src/lib/wordpress.ts`: credentials, paths and the
validated ssh port. `rng 0` and `rng 1` are the bytes of the two
`crypto.randomBytes` calls for `dbPassword` and `adminPassword`. -/
def mkDerived (site : SiteConfig) (rng : Nat → List Nat) (sshPort : Nat)
    (domain phpVersion : String) : Derived :=
  let dbSuffix := if sanitizeDbName domain = "" then "site" else sanitizeDbName domain
  let wpDir := "/var/www/" ++ domain
  { domain := domain
    phpVersion := phpVersion
    dbName := sliceN ("wp_" ++ dbSuffix) 64
    dbUser := sliceN ("wp_" ++ dbSuffix) 32
    dbPassword := generatePassword 32 (rng 0)
    adminPassword := generatePassword 20 (rng 1)
    siteTitle := if sTrim site.siteTitle = "" then "My WordPress Site" else sTrim site.siteTitle
    adminUser := if sTrim site.adminUser = "" then "admin" else sTrim site.adminUser
    adminEmail := sLower (sTrim site.adminEmail)
    wpDir := wpDir
    wpDirArg := shellEscape wpDir
    wpConfigPathArg := shellEscape (wpDir ++ "/wp-config.php")
    effectiveSshPort := if 1 ≤ sshPort ∧ sshPort ≤ 65535 then sshPort else 22 }

def aptUpdateCmd : String :=
  "export DEBIAN_FRONTEND=noninteractive && sudo apt-get update 2>&1"

def nginxCheckCmd : String := "command -v nginx >/dev/null 2>&1"

def nginxInstallCmd : String :=
  "export DEBIAN_FRONTEND=noninteractive && sudo apt-get install -y nginx 2>&1"

def nginxServiceCmd : String := "sudo systemctl enable nginx && sudo systemctl start nginx"

def dbCheckCmd : String :=
  "command -v mariadb >/dev/null 2>&1 || command -v mysql >/dev/null 2>&1"

def mariadbInstallCmd : String :=
  "export DEBIAN_FRONTEND=noninteractive && sudo apt-get install -y mariadb-server mariadb-client 2>&1"

def mariadbServiceCmd : String := "sudo systemctl enable mariadb && sudo systemctl start mariadb"

def phpPrereqCmd : String :=
  "export DEBIAN_FRONTEND=noninteractive && sudo apt-get install -y software-properties-common 2>&1"

def phpRepoCmd : String :=
  "if ! grep -Rqs \"ondrej/php\" /etc/apt/sources.list /etc/apt/sources.list.d 2>/dev/null; then sudo add-apt-repository -y ppa:ondrej/php; fi"

/-- The `phpExtensions` join. -/
def phpExtensions (v : String) : String :=
  String.intercalate " "
    ["php" ++ v ++ "-fpm", "php" ++ v ++ "-mysql", "php" ++ v ++ "-curl",
     "php" ++ v ++ "-gd", "php" ++ v ++ "-mbstring", "php" ++ v ++ "-xml",
     "php" ++ v ++ "-zip", "php" ++ v ++ "-intl", "php" ++ v ++ "-soap",
     "php" ++ v ++ "-bcmath", "php" ++ v ++ "-imagick"]

def phpInstallCmd (v : String) : String :=
  "export DEBIAN_FRONTEND=noninteractive && sudo apt-get install -y " ++
    phpExtensions v ++ " 2>&1"

def phpFpmServiceCmd (v : String) : String :=
  "sudo systemctl enable php" ++ v ++ "-fpm && sudo systemctl start php" ++ v ++ "-fpm"

def dbCreateCmd (d : Derived) : String :=
  "sudo mariadb -e \"CREATE DATABASE IF NOT EXISTS \\`" ++ d.dbName ++
    "\\` CHARACTER SET utf8mb4 COLLATE utf8mb4_unicode_ci;\""

def dbUserCmd (d : Derived) : String :=
  "sudo mariadb -e \"CREATE USER IF NOT EXISTS '" ++ d.dbUser ++
    "'@'localhost' IDENTIFIED BY '" ++ d.dbPassword ++ "';\""

def dbGrantCmd (d : Derived) : String :=
  "sudo mariadb -e \"GRANT ALL PRIVILEGES ON \\`" ++ d.dbName ++ "\\`.* TO '" ++
    d.dbUser ++ "'@'localhost';\""

def dbFlushCmd : String := "sudo mariadb -e \"FLUSH PRIVILEGES;\""

def wpCleanTmpCmd : String := "sudo rm -rf /tmp/wordpress /tmp/wordpress.tar.gz"

def wpMkdirCmd (d : Derived) : String := "sudo mkdir -p " ++ d.wpDirArg

def wpCurlCmd : String :=
  "cd /tmp && sudo curl -fsSL --retry 3 --retry-delay 2 -o wordpress.tar.gz https://wordpress.org/latest.tar.gz"

def wpTarCmd : String := "cd /tmp && sudo tar -xzf wordpress.tar.gz"

def wpCopyCmd (d : Derived) : String := "sudo cp -a /tmp/wordpress/. " ++ d.wpDirArg

def saltKeys : List String :=
  ["AUTH_KEY", "SECURE_AUTH_KEY", "LOGGED_IN_KEY", "NONCE_KEY",
   "AUTH_SALT", "SECURE_AUTH_SALT", "LOGGED_IN_SALT", "NONCE_SALT"]

/-- The `saltKeys.map(…)` join; salt `i` consumes `rng (2 + i)`, the bytes of
the `(2 + i)`-th `crypto.randomBytes` call of the run. -/
def saltsText (rng : Nat → List Nat) : String :=
  String.intercalate "\n"
    (saltKeys.enum.map fun p =>
      "define('" ++ p.2 ++ "', '" ++ generatePassword 64 (rng (2 + p.1)) ++ "');")

/-- The `wpConfig` template literal body. -/
def wpConfigText (d : Derived) (rng : Nat → List Nat) : String :=
  "<?php\n define('DB_NAME', '" ++ d.dbName ++ "');\n define('DB_USER', '" ++
    d.dbUser ++ "');\n define('DB_PASSWORD', '" ++ d.dbPassword ++
    "');\n define('DB_HOST', 'localhost');\n define('DB_CHARSET', 'utf8mb4');\n define('DB_COLLATE', '');\n \n " ++
    saltsText rng ++
    "\n \n $table_prefix = 'wp_';\n \n define('WP_DEBUG', false);\n define('WP_MEMORY_LIMIT', '256M');\n define('WP_MAX_MEMORY_LIMIT', '512M');\n define('FS_METHOD', 'direct');\n define('DISALLOW_FILE_EDIT', true);\n \n if (!defined('ABSPATH')) \x7b\n   define('ABSPATH', __DIR__ . '/');\n \x7d\n \n require_once ABSPATH . 'wp-settings.php';\n"

def writeConfigCmd (d : Derived) (rng : Nat → List Nat) : String :=
  "sudo tee " ++ d.wpConfigPathArg ++ " > /dev/null << 'WPEOF'\n" ++
    wpConfigText d rng ++ "\nWPEOF"

def chownCmd (d : Derived) : String := "sudo chown -R www-data:www-data " ++ d.wpDirArg

def chmodDirCmd (d : Derived) : String :=
  "sudo find " ++ d.wpDirArg ++ " -type d -exec chmod 755 \x7b\x7d \\;"

def chmodFileCmd (d : Derived) : String :=
  "sudo find " ++ d.wpDirArg ++ " -type f -exec chmod 644 \x7b\x7d \\;"

def fastcgiCheckCmd : String := "test -f /etc/nginx/snippets/fastcgi-php.conf"

/-- The two renderings of `phpLocationBlock`: with the snippet include, or the
inline equivalent. -/
def phpLocationBlock (snippet : Bool) (v : String) : String :=
  if snippet then
    "location ~ \\.php$ \x7b\n         include snippets/fastcgi-php.conf;\n         fastcgi_pass unix:/run/php/php" ++
      v ++ "-fpm.sock;\n       \x7d"
  else
    "location ~ \\.php$ \x7b\n         include fastcgi_params;\n         fastcgi_param SCRIPT_FILENAME $document_root$fastcgi_script_name;\n         fastcgi_pass unix:/run/php/php" ++
      v ++ "-fpm.sock;\n       \x7d"

/-- The `nginxConfig` template literal body. -/
def nginxConfigText (d : Derived) (snippet : Bool) : String :=
  "server \x7b\n     listen 80;\n     listen [::]:80;\n     server_name " ++
    d.domain ++ " www." ++ d.domain ++ ";\n     root " ++ d.wpDir ++
    ";\n     index index.php index.html;\n \n     client_max_body_size 64M;\n \n     location / \x7b\n       try_files $uri $uri/ /index.php?$args;\n     \x7d\n \n     " ++
    phpLocationBlock snippet d.phpVersion ++
    "\n \n     location ~ /\\.ht \x7b\n       deny all;\n     \x7d\n \n     location = /favicon.ico \x7b\n       log_not_found off;\n       access_log off;\n     \x7d\n \n     location = /robots.txt \x7b\n       allow all;\n       log_not_found off;\n       access_log off;\n     \x7d\n \n     location ~* \\.(css|gif|ico|jpeg|jpg|js|png|svg|woff|woff2|ttf|eot)$ \x7b\n       expires 30d;\n       add_header Cache-Control \"public, immutable\";\n     \x7d\n   \x7d"

def nginxSitePath (d : Derived) : String := "/etc/nginx/sites-available/" ++ d.domain

def writeNginxCmd (d : Derived) (snippet : Bool) : String :=
  "sudo tee " ++ shellEscape (nginxSitePath d) ++ " > /dev/null << 'NGINXEOF'\n" ++
    nginxConfigText d snippet ++ "\nNGINXEOF"

def lnSiteCmd (d : Derived) : String :=
  "sudo ln -sfn " ++ shellEscape (nginxSitePath d) ++ " " ++
    shellEscape ("/etc/nginx/sites-enabled/" ++ d.domain)

def rmDefaultSiteCmd : String := "sudo rm -f /etc/nginx/sites-enabled/default"

def nginxTestCmd : String := "sudo nginx -t 2>&1"

def nginxReloadCmd : String := "sudo systemctl reload nginx"

def wpCliCheckCmd : String := "command -v wp >/dev/null 2>&1"

def wpCliDlCmd : String :=
  "curl -fsSL --retry 3 --retry-delay 2 -o /tmp/wp-cli.phar https://raw.githubusercontent.com/wp-cli/builds/gh-pages/phar/wp-cli.phar"

def wpCliInfoCmd : String := "php /tmp/wp-cli.phar --info >/dev/null"

def wpCliInstallCmd : String := "sudo install -m 0755 /tmp/wp-cli.phar /usr/local/bin/wp"

def wpCliRmCmd : String := "rm -f /tmp/wp-cli.phar"

def wpCoreInstallCmd (d : Derived) : String :=
  "sudo -u www-data wp core install --path=" ++ shellEscape d.wpDir ++
    " --url=" ++ shellEscape ("http://" ++ d.domain) ++
    " --title=" ++ shellEscape d.siteTitle ++
    " --admin_user=" ++ shellEscape d.adminUser ++
    " --admin_password=" ++ shellEscape d.adminPassword ++
    " --admin_email=" ++ shellEscape d.adminEmail ++
    " --skip-email 2>&1"

def ufwCheckCmd : String := "command -v ufw >/dev/null 2>&1"

def ufwInstallCmd : String :=
  "export DEBIAN_FRONTEND=noninteractive && sudo apt-get install -y ufw 2>&1"

def ufwAllowPortCmd (port : Nat) : String := "sudo ufw allow " ++ toString port ++ "/tcp"

def ufwAllow80Cmd : String := "sudo ufw allow 80/tcp"

def ufwAllow443Cmd : String := "sudo ufw allow 443/tcp"

def ufwEnableCmd : String := "sudo ufw --force enable"

def phpIniPathArg (v : String) : String := shellEscape ("/etc/php/" ++ v ++ "/fpm/php.ini")

def sedUploadCmd (v : String) : String :=
  "sudo sed -i -E \"s~^;?upload_max_filesize\\s*=.*$~upload_max_filesize = 64M~\" " ++
    phpIniPathArg v

def sedPostCmd (v : String) : String :=
  "sudo sed -i -E \"s~^;?post_max_size\\s*=.*$~post_max_size = 64M~\" " ++ phpIniPathArg v

def sedExecCmd (v : String) : String :=
  "sudo sed -i -E \"s~^;?max_execution_time\\s*=.*$~max_execution_time = 300~\" " ++
    phpIniPathArg v

def sedMemoryCmd (v : String) : String :=
  "sudo sed -i -E \"s~^;?memory_limit\\s*=.*$~memory_limit = 256M~\" " ++ phpIniPathArg v

def restartFpmCmd (v : String) : String := "sudo systemctl restart php" ++ v ++ "-fpm"

def certbotInstallCmd : String :=
  "export DEBIAN_FRONTEND=noninteractive && sudo apt-get install -y certbot python3-certbot-nginx 2>&1"

def getentCmd (hostname : String) : String :=
  "getent ahostsv4 " ++ shellEscape hostname ++ " | awk '\x7bprint $1\x7d' | head -1"

def certCmdOf (d : Derived) (certDomains : String) : String :=
  "sudo certbot --nginx " ++ certDomains ++
    " --non-interactive --agree-tos --email " ++ shellEscape d.adminEmail ++
    " --redirect 2>&1"

def wpOptionCmd (d : Derived) (opt : String) : String :=
  "sudo -u www-data wp option update " ++ opt ++ " " ++
    shellEscape ("https://" ++ d.domain) ++ " --path=" ++ shellEscape d.wpDir ++ " 2>&1"


/-- The repeated `if (check.code !== 0) { install }` pattern of the nginx,
mariadb and ufw stages. -/
def installIfMissing (host : Host) (code : Nat) (cmd ctx : String) (tm : Nat) : M Unit :=
  if code ≠ 0 then do
    let _ ← runCheckedCommand host cmd ctx tm
    pure ()
  else pure ()

/-- Stage `system-update` (lines 87-94). -/
def stageSystemUpdate (host : Host) : M Unit := do
  emit "system-update" "running" "Updating system packages..." none
  let _ ← runCheckedCommand host aptUpdateCmd "System update failed" 180000
  emit "system-update" "completed" "System packages updated" none

/-- Stage `nginx` (lines 96-107). -/
def stageNginx (host : Host) : M Unit := do
  emit "nginx" "running" "Installing Nginx..." none
  let nginxCheck ← execCommandWithTimeout host nginxCheckCmd 15000
  installIfMissing host nginxCheck.code nginxInstallCmd "Nginx installation failed" 120000
  let _ ← runCheckedCommand host nginxServiceCmd "Nginx service setup failed" 120000
  emit "nginx" "completed" "Nginx installed and running" none

/-- Stage `database` (lines 109-120). -/
def stageDatabase (host : Host) : M Unit := do
  emit "database" "running" "Installing MariaDB..." none
  let dbCheck ← execCommandWithTimeout host dbCheckCmd 15000
  installIfMissing host dbCheck.code mariadbInstallCmd "MariaDB installation failed" 180000
  let _ ← runCheckedCommand host mariadbServiceCmd "MariaDB service setup failed" 120000
  emit "database" "completed" "MariaDB installed and running" none

/-- Stage `php` (lines 122-166). -/
def stagePhp (host : Host) (v : String) : M Unit := do
  emit "php" "running" ("Installing PHP " ++ v ++ " and extensions...") none
  let _ ← runCheckedCommand host phpPrereqCmd "PHP prerequisite installation failed" 120000
  let _ ← runCheckedCommand host phpRepoCmd "PHP repository setup failed" 120000
  let _ ← runCheckedCommand host aptUpdateCmd
    "Package index refresh failed after PHP repository setup" 180000
  let _ ← runCheckedCommand host (phpInstallCmd v) "PHP installation failed" 180000
  let _ ← runCheckedCommand host (phpFpmServiceCmd v) "PHP-FPM service setup failed" 120000
  emit "php" "completed" ("PHP " ++ v ++ " installed with extensions") none

/-- Stage `db-config` (lines 168-179): the four `dbCommands` in order. -/
def stageDbConfig (host : Host) (d : Derived) : M Unit := do
  emit "db-config" "running" "Creating WordPress database and user..." none
  let _ ← runCheckedCommand host (dbCreateCmd d) "Database setup failed" 120000
  let _ ← runCheckedCommand host (dbUserCmd d) "Database setup failed" 120000
  let _ ← runCheckedCommand host (dbGrantCmd d) "Database setup failed" 120000
  let _ ← runCheckedCommand host dbFlushCmd "Database setup failed" 120000
  emit "db-config" "completed" "Database and user created" none

/-- Stage `wordpress` (lines 181-194): the six `wpCommands` in order. -/
def stageWordpressDl (host : Host) (d : Derived) : M Unit := do
  emit "wordpress" "running" "Downloading latest WordPress..." none
  let _ ← runCheckedCommand host wpCleanTmpCmd "WordPress download failed" 120000
  let _ ← runCheckedCommand host (wpMkdirCmd d) "WordPress download failed" 120000
  let _ ← runCheckedCommand host wpCurlCmd "WordPress download failed" 120000
  let _ ← runCheckedCommand host wpTarCmd "WordPress download failed" 120000
  let _ ← runCheckedCommand host (wpCopyCmd d) "WordPress download failed" 120000
  let _ ← runCheckedCommand host wpCleanTmpCmd "WordPress download failed" 120000
  emit "wordpress" "completed" "WordPress downloaded" none

/-- Stage `wp-config` (lines 196-248). -/
def stageWpConfig (host : Host) (rng : Nat → List Nat) (d : Derived) : M Unit := do
  emit "wp-config" "running" "Configuring WordPress..." none
  let _ ← runCheckedCommand host (writeConfigCmd d rng) "WordPress config write failed" 60000
  let _ ← runCheckedCommand host (chownCmd d) "WordPress ownership update failed" 60000
  let _ ← runCheckedCommand host (chmodDirCmd d) "Directory permission update failed" 60000
  let _ ← runCheckedCommand host (chmodFileCmd d) "File permission update failed" 60000
  emit "wp-config" "completed" "WordPress configured" none

/-- Stage `nginx-config` (lines 250-313): the fastcgi snippet pre-check picks
one of the two renderings, the config is written once, validated once. -/
def stageNginxConfig (host : Host) (d : Derived) : M Unit := do
  emit "nginx-config" "running" "Setting up Nginx virtual host..." none
  let fastcgiSnippetCheck ← execCommandWithTimeout host fastcgiCheckCmd 10000
  let snippet := fastcgiSnippetCheck.code = 0
  let _ ← runCheckedCommand host (writeNginxCmd d snippet) "Nginx configuration write failed" 60000
  let _ ← runCheckedCommand host (lnSiteCmd d) "Nginx site enable failed" 120000
  let _ ← runCheckedCommand host rmDefaultSiteCmd "Nginx default site cleanup failed" 120000
  let _ ← runCheckedCommand host nginxTestCmd "Nginx configuration test failed" 30000
  let _ ← runCheckedCommand host nginxReloadCmd "Nginx reload failed" 30000
  emit "nginx-config" "completed" "Nginx virtual host configured" none

/-- The WP-CLI download/verify/install/cleanup block, run only when `wp` is
absent (lines 316-327). -/
def wpCliEnsure (host : Host) (code : Nat) : M Unit :=
  if code ≠ 0 then do
    let _ ← runCheckedCommand host wpCliDlCmd "WP-CLI download failed" 60000
    let _ ← runCheckedCommand host wpCliInfoCmd "WP-CLI PHAR validation failed" 30000
    let _ ← runCheckedCommand host wpCliInstallCmd "WP-CLI installation failed" 30000
    let _ ← runCheckedCommand host wpCliRmCmd "WP-CLI cleanup failed" 15000
    pure ()
  else pure ()

/-- Stage `wp-install` (lines 315-343): no probe of an existing installation;
`wp core install` is always issued. -/
def stageWpInstall (host : Host) (d : Derived) : M Unit := do
  emit "wp-install" "running" "Running WordPress installation..." none
  let wpCliCheck ← execCommandWithTimeout host wpCliCheckCmd 10000
  wpCliEnsure host wpCliCheck.code
  let _ ← runCheckedCommand host (wpCoreInstallCmd d) "WordPress core install failed" 120000
  emit "wp-install" "completed" "WordPress installed successfully" none

/-- The firewall rules after the own-port `allow`, enforcement, and the
php.ini hardening (lines 357-374). -/
def securityTail (host : Host) (d : Derived) : M Unit := do
  let _ ← runCheckedCommand host ufwAllow80Cmd "Firewall HTTP rule setup failed" 30000
  let _ ← runCheckedCommand host ufwAllow443Cmd "Firewall HTTPS rule setup failed" 30000
  let _ ← runCheckedCommand host ufwEnableCmd "Firewall enable failed" 30000
  let _ ← runCheckedCommand host (sedUploadCmd d.phpVersion)
    "PHP hardening configuration failed" 30000
  let _ ← runCheckedCommand host (sedPostCmd d.phpVersion)
    "PHP hardening configuration failed" 30000
  let _ ← runCheckedCommand host (sedExecCmd d.phpVersion)
    "PHP hardening configuration failed" 30000
  let _ ← runCheckedCommand host (sedMemoryCmd d.phpVersion)
    "PHP hardening configuration failed" 30000
  let _ ← runCheckedCommand host (restartFpmCmd d.phpVersion) "PHP-FPM restart failed" 30000
  emit "security" "completed" "Security hardening applied" none

/-- Stage `security` (lines 345-374): ufw presence, the three allow rules (the
session's own port first), enforcement, then the php.ini overrides. -/
def stageSecurity (host : Host) (d : Derived) : M Unit := do
  emit "security" "running" "Applying security hardening..." none
  let ufwCheck ← execCommandWithTimeout host ufwCheckCmd 10000
  installIfMissing host ufwCheck.code ufwInstallCmd "UFW installation failed" 120000
  let _ ← runCheckedCommand host (ufwAllowPortCmd d.effectiveSshPort)
    "Firewall SSH rule setup failed" 30000
  securityTail host d

/-- The final `ssl` progress event of the success branch, depending on the two
`wp option update` exit codes (lines 432-440). -/
def sslCompletionEmit (siteCode homeCode : Nat) : M Unit :=
  if siteCode = 0 ∧ homeCode = 0 then
    emit "ssl" "completed" "SSL certificate installed and WordPress updated to HTTPS" none
  else
    emit "ssl" "completed"
      "SSL certificate installed. Update siteurl/home manually if WordPress still uses HTTP." none

/-- Stage `ssl` (lines 376-442), entered only when TLS was requested; returns
the updated `sslInstalled` flag. -/
def stageSsl (host : Host) (d : Derived) : M Bool := do
  emit "ssl" "running" "Setting up SSL with Let's Encrypt..." none
  let _ ← runCheckedCommand host certbotInstallCmd "Certbot installation failed" 120000
  let apexDns ← execCommandWithTimeout host (getentCmd d.domain) 15000
  let wwwDns ← execCommandWithTimeout host (getentCmd ("www." ++ d.domain)) 15000
  let certDomains :=
    if sTrim wwwDns.stdout ≠ "" ∧ sTrim apexDns.stdout ≠ "" ∧
        sTrim wwwDns.stdout = sTrim apexDns.stdout then
      "-d " ++ shellEscape d.domain ++ " -d " ++ shellEscape ("www." ++ d.domain)
    else "-d " ++ shellEscape d.domain
  let certResult ← execCommandWithTimeout host (certCmdOf d certDomains) 240000
  if certResult.code ≠ 0 then do
    emit "ssl" "failed" ("SSL setup failed. " ++ sliceN (commandErrorOutput certResult) 240) none
    pure false
  else do
    let _ ← runCheckedCommand host nginxReloadCmd "Nginx reload after SSL failed" 30000
    let siteUrlUpdate ← execCommandWithTimeout host (wpOptionCmd d "siteurl") 30000
    let homeUrlUpdate ← execCommandWithTimeout host (wpOptionCmd d "home") 30000
    sslCompletionEmit siteUrlUpdate.code homeUrlUpdate.code
    pure true

/-- `if (site.enableSSL) { … }`: the conditional ssl stage, otherwise leaving
`sslInstalled` at `false`. -/
def sslIfEnabled (host : Host) (site : SiteConfig) (d : Derived) : M Bool :=
  if site.enableSSL then stageSsl host d else pure false

/-- The body of `installWordPress`'s `try` block: the stages in program order,
ending in the success record. -/
def installBody (host : Host) (rng : Nat → List Nat) (site : SiteConfig)
    (d : Derived) : M InstallResult := do
  stageSystemUpdate host
  stageNginx host
  stageDatabase host
  stagePhp host d.phpVersion
  stageDbConfig host d
  stageWordpressDl host d
  stageWpConfig host rng d
  stageNginxConfig host d
  stageWpInstall host d
  stageSecurity host d
  let sslInstalled ← sslIfEnabled host site d
  emit "complete" "completed" "WordPress installation complete!" none
  pure { success := true, sslInstalled := sslInstalled, adminPassword := d.adminPassword,
         dbName := d.dbName, dbUser := d.dbUser, dbPassword := d.dbPassword, error := none }

def domainInvalidMsg : String :=
  "Domain format is invalid. Use a fully qualified domain like example.com."

def phpInvalidMsg : String :=
  "Unsupported PHP version. Supported versions: 8.1, 8.2, 8.3, 8.4."

/-- The failure record the `catch` block resolves with. -/
def failResult (e : String) : InstallResult :=
  { success := false, sslInstalled := false, adminPassword := "",
    dbName := "", dbUser := "", dbPassword := "", error := some e }

/-- The `catch` block of `installWordPress`: one `error` event, then the
failure record. -/
def installCatch (e : String) : M InstallResult := do
  emit "error" "failed" e none
  pure (failResult e)

/-- `installWordPress` from `src/lib/wordpress.ts`: input validation happens
before the `try`, so those two throws escape to the caller; everything inside
the `try` is converted by the `catch` into a single `error` event plus a
`success: false` record. -/
def installWordPress (host : Host) (rng : Nat → List Nat) (site : SiteConfig)
    (sshPort : Nat) : M InstallResult :=
  let domain := normalizeDomain site.domain
  if isValidDomain domain = false then throwM domainInvalidMsg
  else
    match parsePhpVersion site.phpVersion with
    | none => throwM phpInvalidMsg
    | some phpVersion =>
      tryCatchM (installBody host rng site (mkDerived site rng sshPort domain phpVersion))
        installCatch

/-- The `result` payload of the route's completion record (defensive route
variant, with `sslRequested`/`sslEnabled`). -/
structure CompletionData where
  siteUrl : String
  adminUrl : String
  adminUser : String
  adminPassword : String
  dbName : String
  dbUser : String
  dbPassword : String
  sslRequested : Bool
  sslEnabled : Bool
deriving DecidableEq, Repr

/-- What one run of the route's stream `start` callback produced: the SSE
records in order (the completion record appears as a `done` event, its payload
kept in `completion`), the commands issued on the host, and whether
`conn.end()` was reached in the `finally` block. -/
structure RouteRun where
  records : List Event
  completion : Option CompletionData
  cmds : List String
  endCalled : Bool
deriving DecidableEq, Repr

def connectingRunningEvent : Event :=
  ⟨"connecting", "running", "Connecting to server...", none⟩

def connectingCompletedEvent : Event :=
  ⟨"connecting", "completed", "Connected to server", none⟩

/-- JS `result.error || 'Installation failed'`. -/
def errorOrDefaultMsg : Option String → String
  | some e => if e = "" then "Installation failed" else e
  | none => "Installation failed"

/-- The trace after the two `connecting` events, before the orchestrator
starts. -/
def routeT0 : Trace := ⟨[connectingRunningEvent, connectingCompletedEvent], []⟩

/-- The stream `start` body of the install route (defensive variant), for a
reader that stays connected: emit the connecting events, run the orchestrator,
then exactly one completion or error record, closing the connection in
`finally`.  `connect` is the outcome of `createSSHConnection`. -/
def routeStart (connect : Except String Unit) (host : Host) (rng : Nat → List Nat)
    (site : SiteConfig) (port : Nat) : RouteRun :=
  match connect with
  | Except.error msg =>
    { records := [connectingRunningEvent, ⟨"error", "failed", msg, none⟩],
      completion := none, cmds := [], endCalled := false }
  | Except.ok _ =>
    match installWordPress host rng site port routeT0 with
    | (Except.ok res, t) =>
      if res.success then
        let protocol := if res.sslInstalled then "https" else "http"
        { records := t.events ++ [⟨"done", "completed", "Installation complete!", none⟩],
          completion := some
            { siteUrl := protocol ++ "://" ++ site.domain,
              adminUrl := protocol ++ "://" ++ site.domain ++ "/wp-admin",
              adminUser := site.adminUser,
              adminPassword := res.adminPassword,
              dbName := res.dbName, dbUser := res.dbUser, dbPassword := res.dbPassword,
              sslRequested := site.enableSSL, sslEnabled := res.sslInstalled },
          cmds := t.cmds, endCalled := true }
      else
        { records := t.events ++ [⟨"error", "failed", errorOrDefaultMsg res.error, none⟩],
          completion := none, cmds := t.cmds, endCalled := true }
    | (Except.error msg, t) =>
      { records := t.events ++ [⟨"error", "failed", msg, none⟩],
        completion := none, cmds := t.cmds, endCalled := true }

/-- A record is terminal when it is the route's error record or its completion
record. -/
def isTerminalRecord (e : Event) : Bool :=
  e.step == "error" || e.step == "done"

def terminalCount (es : List Event) : Nat :=
  es.countP isTerminalRecord

/-- The events `createSSHConnection` (defensive variant, `src/lib/ssh.ts`
lines 75-131) can observe: the transport becoming ready, an error, the
transport closing, or the 20-second guard timer firing (which, by the timer's
construction, happens exactly when 20 seconds pass with `clearTimeout` not yet
called). -/
inductive ConnEvent where
  | ready
  | connError (msg : String)
  | closed
  | timerFires
deriving DecidableEq, Repr

instance {ε α : Type} [DecidableEq ε] [DecidableEq α] : DecidableEq (Except ε α) :=
  fun a b =>
  match a, b with
  | Except.ok x, Except.ok y =>
    match decEq x y with
    | isTrue h => isTrue (by rw [h])
    | isFalse h => isFalse (fun hh => h (by injection hh))
  | Except.ok _, Except.error _ => isFalse (fun h => Except.noConfusion h)
  | Except.error _, Except.ok _ => isFalse (fun h => Except.noConfusion h)
  | Except.error x, Except.error y =>
    match decEq x y with
    | isTrue h => isTrue (by rw [h])
    | isFalse h => isFalse (fun hh => h (by injection hh))

/-- The promise's state: `settled`/`result` mirror `resolveOnce`/`rejectOnce`,
`endCalled` records that `conn.end()` ran, `timerActive` that `clearTimeout`
has not run yet. -/
structure ConnState where
  settled : Bool
  result : Option (Except String Unit)
  endCalled : Bool
  timerActive : Bool
deriving DecidableEq, Repr

def connInit : ConnState :=
  { settled := false, result := none, endCalled := false, timerActive := true }

def connTimeoutMsg : String := "SSH connection timed out after 20 seconds"

def connClosedMsg : String := "SSH connection closed before becoming ready"

/-- One observed event, as the handlers in `createSSHConnection` process it:
`ready` resolves once, `error` rejects once, `close` rejects once if nothing
settled yet, and the timer callback first tears the transport down with
`conn.end()` and then rejects with the timeout error. -/
def connStep (s : ConnState) (e : ConnEvent) : ConnState :=
  match e with
  | ConnEvent.ready =>
    if s.settled then s
    else { s with settled := true, timerActive := false, result := some (Except.ok ()) }
  | ConnEvent.connError msg =>
    if s.settled then s
    else { s with settled := true, timerActive := false, result := some (Except.error msg) }
  | ConnEvent.closed =>
    if s.settled then s
    else { s with settled := true, timerActive := false,
                  result := some (Except.error connClosedMsg) }
  | ConnEvent.timerFires =>
    if s.timerActive then
      let s' := { s with endCalled := true }
      if s'.settled then s'
      else { s' with settled := true, timerActive := false,
                     result := some (Except.error connTimeoutMsg) }
    else s

/-- The state after the whole event history. -/
def connRun (events : List ConnEvent) : ConnState :=
  events.foldl connStep connInit

/-- Framing predicate: `m` only appends to the trace, its new events all carry
a step from `S`, and its new commands all satisfy `P`. -/
def Emits (S : List String) (P : String → Prop) {α : Type} (m : M α) : Prop :=
  ∀ t : Trace, ∃ Δe Δc, (m t).2.events = t.events ++ Δe ∧ (m t).2.cmds = t.cmds ++ Δc ∧
    (∀ e ∈ Δe, e.step ∈ S) ∧ (∀ c ∈ Δc, P c)

theorem Emits.pureM {S : List String} {P : String → Prop} {α : Type} (a : α) :
    Emits S P (pure a : M α) :=
  fun t => ⟨[], [], by simp [M_pure_apply], by simp [M_pure_apply], by simp, by simp⟩

theorem Emits.throwErr {S : List String} {P : String → Prop} {α : Type} (e : String) :
    Emits S P (throwM e : M α) :=
  fun t => ⟨[], [], by simp [throwM], by simp [throwM], by simp, by simp⟩

theorem Emits.emitM {S : List String} {P : String → Prop} (st stat msg : String)
    (det : Option String) (hs : st ∈ S) : Emits S P (emit st stat msg det) :=
  fun t => ⟨[⟨st, stat, msg, det⟩], [], rfl, by simp [emit], by simpa using hs, by simp⟩

theorem Emits.execM {S : List String} {P : String → Prop} (host : Host) (cmd : String)
    (tm : Nat) (hc : P cmd) : Emits S P (execCommandWithTimeout host cmd tm) := by
  intro t
  refine ⟨[], [cmd], ?_, ?_, by simp, by simpa using hc⟩ <;>
    unfold execCommandWithTimeout <;> cases host t.cmds.length cmd <;> simp

theorem Emits.bindM {S : List String} {P : String → Prop} {α β : Type}
    {m : M α} {k : α → M β} (hm : Emits S P m) (hk : ∀ a, Emits S P (k a)) :
    Emits S P (m >>= k) := by
  intro t
  obtain ⟨Δe, Δc, he, hc, hse, hsc⟩ := hm t
  rw [M_bind_apply]
  cases hmt : m t with
  | mk r t' =>
    rw [hmt] at he hc
    cases r with
    | error e => exact ⟨Δe, Δc, he, hc, hse, hsc⟩
    | ok a =>
      obtain ⟨Δe2, Δc2, he2, hc2, hse2, hsc2⟩ := hk a t'
      refine ⟨Δe ++ Δe2, Δc ++ Δc2, ?_, ?_, ?_, ?_⟩
      · rw [he2, he, List.append_assoc]
      · rw [hc2, hc, List.append_assoc]
      · intro e hee
        rcases List.mem_append.mp hee with h | h
        · exact hse e h
        · exact hse2 e h
      · intro c hcc
        rcases List.mem_append.mp hcc with h | h
        · exact hsc c h
        · exact hsc2 c h

theorem Emits.iteM {S : List String} {P : String → Prop} {α : Type} {c : Prop}
    [Decidable c] {m₁ m₂ : M α} (h₁ : Emits S P m₁) (h₂ : Emits S P m₂) :
    Emits S P (if c then m₁ else m₂) := by
  by_cases hc : c
  · simpa [hc] using h₁
  · simpa [hc] using h₂

theorem Emits.runCheckedM {S : List String} {P : String → Prop} (host : Host)
    (cmd ctx : String) (tm : Nat) (hc : P cmd) :
    Emits S P (runCheckedCommand host cmd ctx tm) := by
  unfold runCheckedCommand
  exact Emits.bindM (Emits.execM host cmd tm hc)
    (fun r => Emits.iteM (Emits.throwErr _) (Emits.pureM r))

theorem Emits.tryCatch {S : List String} {P : String → Prop} {α : Type}
    {m : M α} {h : String → M α} (hm : Emits S P m) (hh : ∀ e, Emits S P (h e)) :
    Emits S P (tryCatchM m h) := by
  intro t
  obtain ⟨Δe, Δc, he, hc, hse, hsc⟩ := hm t
  unfold tryCatchM
  cases hmt : m t with
  | mk r t' =>
    rw [hmt] at he hc
    cases r with
    | ok a => exact ⟨Δe, Δc, he, hc, hse, hsc⟩
    | error e =>
      obtain ⟨Δe2, Δc2, he2, hc2, hse2, hsc2⟩ := hh e t'
      refine ⟨Δe ++ Δe2, Δc ++ Δc2, ?_, ?_, ?_, ?_⟩
      · rw [he2, he, List.append_assoc]
      · rw [hc2, hc, List.append_assoc]
      · intro x hx
        rcases List.mem_append.mp hx with hx | hx
        · exact hse x hx
        · exact hse2 x hx
      · intro x hx
        rcases List.mem_append.mp hx with hx | hx
        · exact hsc x hx
        · exact hsc2 x hx

theorem Emits.mono {S S' : List String} {P P' : String → Prop} {α : Type} {m : M α}
    (hS : ∀ s ∈ S, s ∈ S') (hP : ∀ c, P c → P' c) (h : Emits S P m) : Emits S' P' m := by
  intro t
  obtain ⟨Δe, Δc, he, hc, hse, hsc⟩ := h t
  exact ⟨Δe, Δc, he, hc, fun e he' => hS _ (hse e he'), fun c hc' => hP _ (hsc c hc')⟩

/-- Two strings with different prefixes differ, whatever the tail: used to
separate the parameterised command texts from `sudo ufw --force enable`. -/
theorem ne_of_take_ne_head (a x b : String) (n : Nat) (hn : n ≤ a.data.length)
    (h : a.data.take n ≠ b.data.take n) : a ++ x ≠ b := by
  intro heq
  apply h
  rw [← heq, String.data_append, List.take_append_of_le_length hn]

theorem ufwAllowPortCmd_ne_enable (port : Nat) : ufwAllowPortCmd port ≠ ufwEnableCmd := by
  unfold ufwAllowPortCmd
  rw [String.append_assoc]
  exact ne_of_take_ne_head _ _ _ 11 (by decide) (by decide)

/-- Whenever `m` issues the `ufw --force enable` command, the `allow` rule for
the session's own port was issued strictly earlier among `m`'s own commands. -/
def UfwSafe (allow : String) {α : Type} (m : M α) : Prop :=
  ∀ t : Trace, ∃ Δc, (m t).2.cmds = t.cmds ++ Δc ∧
    (ufwEnableCmd ∈ Δc → [allow, ufwEnableCmd].Sublist Δc)

theorem UfwSafe.of_emits {allow : String} {S : List String} {P : String → Prop} {α : Type}
    {m : M α} (hP : ∀ c, P c → c ≠ ufwEnableCmd) (h : Emits S P m) : UfwSafe allow m := by
  intro t
  obtain ⟨Δe, Δc, _, hc, _, hsc⟩ := h t
  exact ⟨Δc, hc, fun hin => absurd rfl (hP _ (hsc _ hin))⟩

theorem UfwSafe.bindUf {allow : String} {α β : Type} {m : M α} {k : α → M β}
    (hm : UfwSafe allow m) (hk : ∀ a, UfwSafe allow (k a)) : UfwSafe allow (m >>= k) := by
  intro t
  obtain ⟨Δc, hc, hs⟩ := hm t
  rw [M_bind_apply]
  cases hmt : m t with
  | mk r t' =>
    rw [hmt] at hc
    cases r with
    | error e => exact ⟨Δc, hc, hs⟩
    | ok a =>
      obtain ⟨Δc2, hc2, hs2⟩ := hk a t'
      refine ⟨Δc ++ Δc2, by rw [hc2, hc, List.append_assoc], ?_⟩
      intro hin
      rcases List.mem_append.mp hin with hin | hin
      · exact (hs hin).trans (List.sublist_append_left Δc Δc2)
      · exact (hs2 hin).trans (List.sublist_append_right Δc Δc2)

theorem UfwSafe.iteUf {allow : String} {α : Type} {c : Prop} [Decidable c] {m₁ m₂ : M α}
    (h₁ : UfwSafe allow m₁) (h₂ : UfwSafe allow m₂) : UfwSafe allow (if c then m₁ else m₂) := by
  by_cases hc : c
  · simpa [hc] using h₁
  · simpa [hc] using h₂

theorem UfwSafe.tryCatchUf {allow : String} {α : Type} {m : M α} {h : String → M α}
    (hm : UfwSafe allow m) (hh : ∀ e, UfwSafe allow (h e)) : UfwSafe allow (tryCatchM m h) := by
  intro t
  obtain ⟨Δc, hc, hs⟩ := hm t
  unfold tryCatchM
  cases hmt : m t with
  | mk r t' =>
    rw [hmt] at hc
    cases r with
    | ok a => exact ⟨Δc, hc, hs⟩
    | error e =>
      obtain ⟨Δc2, hc2, hs2⟩ := hh e t'
      refine ⟨Δc ++ Δc2, by rw [hc2, hc, List.append_assoc], ?_⟩
      intro hin
      rcases List.mem_append.mp hin with hin | hin
      · exact (hs hin).trans (List.sublist_append_left Δc Δc2)
      · exact (hs2 hin).trans (List.sublist_append_right Δc Δc2)

/-- The protected `allow own port, …, enable` block: whatever comes after the
`allow` rule, the enable command can only appear after it. -/
theorem UfwSafe.allow_bind {α : Type} (host : Host) (port : Nat) (ctx : String) (tm : Nat)
    {K : CommandResult → M α}
    (hK : ∀ r, Emits stageSteps (fun _ => True) (K r)) :
    UfwSafe (ufwAllowPortCmd port)
      (runCheckedCommand host (ufwAllowPortCmd port) ctx tm >>= K) := by
  intro t
  have hne : ufwEnableCmd ∉ [ufwAllowPortCmd port] := by
    intro hmem
    exact ufwAllowPortCmd_ne_enable port (List.mem_singleton.mp hmem).symm
  cases hh : host t.cmds.length (ufwAllowPortCmd port) with
  | thrown msg =>
    refine ⟨[ufwAllowPortCmd port], ?_, fun hin => absurd hin hne⟩
    simp [M_bind_apply, runCheckedCommand, execCommandWithTimeout, hh]
  | ok out err code =>
    by_cases hcode : code = 0
    · have hrun : (runCheckedCommand host (ufwAllowPortCmd port) ctx tm >>= K) t =
          K ⟨sTrim out, sTrim err, code⟩ { t with cmds := t.cmds ++ [ufwAllowPortCmd port] } := by
        simp [M_bind_apply, runCheckedCommand, execCommandWithTimeout, hh, hcode, M_pure_apply]
      obtain ⟨Δe2, Δc2, _, hc2, _, _⟩ :=
        hK ⟨sTrim out, sTrim err, code⟩ { t with cmds := t.cmds ++ [ufwAllowPortCmd port] }
      rw [hrun]
      refine ⟨[ufwAllowPortCmd port] ++ Δc2, by rw [hc2]; simp, ?_⟩
      intro hin
      rcases List.mem_append.mp hin with hin | hin
      · exact absurd hin hne
      · exact (List.singleton_sublist.mpr hin).cons₂ (ufwAllowPortCmd port)
    · refine ⟨[ufwAllowPortCmd port], ?_, fun hin => absurd hin hne⟩
      simp [M_bind_apply, runCheckedCommand, execCommandWithTimeout, hh, hcode, throwM]

/-- Every `ok` return value of `m` satisfies `p`. -/
def RetSucceeds {α : Type} (p : α → Prop) (m : M α) : Prop :=
  ∀ t a t', m t = (Except.ok a, t') → p a

theorem RetSucceeds.bindRet {α β : Type} {p : β → Prop} {m : M α} {k : α → M β}
    (hk : ∀ a, RetSucceeds p (k a)) : RetSucceeds p (m >>= k) := by
  intro t b t' h
  rw [M_bind_apply] at h
  cases hmt : m t with
  | mk r tm =>
    rw [hmt] at h
    cases r with
    | error e =>
      have h1 : (Except.error e : Except String β) = Except.ok b := congrArg Prod.fst h
      exact Except.noConfusion h1
    | ok a => exact hk a tm b t' h

theorem RetSucceeds.pureRet {α : Type} {p : α → Prop} (a : α) (h : p a) :
    RetSucceeds p (pure a : M α) := by
  intro t b t' hh
  rw [M_pure_apply] at hh
  cases hh
  exact h

theorem RetSucceeds.throwRet {α : Type} {p : α → Prop} (e : String) :
    RetSucceeds p (throwM e : M α) := by
  intro t b t' hh
  exact absurd (congrArg Prod.fst hh) (by simp [throwM])

theorem RetSucceeds.iteRet {α : Type} {p : α → Prop} {c : Prop} [Decidable c] {m₁ m₂ : M α}
    (h₁ : RetSucceeds p m₁) (h₂ : RetSucceeds p m₂) : RetSucceeds p (if c then m₁ else m₂) := by
  by_cases hc : c
  · simpa [hc] using h₁
  · simpa [hc] using h₂

theorem phpInstallCmd_ne (v : String) : phpInstallCmd v ≠ ufwEnableCmd := by
  unfold phpInstallCmd
  simp only [String.append_assoc]
  exact ne_of_take_ne_head _ _ _ 5 (by decide) (by decide)

theorem phpFpmServiceCmd_ne (v : String) : phpFpmServiceCmd v ≠ ufwEnableCmd := by
  unfold phpFpmServiceCmd
  simp only [String.append_assoc]
  exact ne_of_take_ne_head _ _ _ 6 (by decide) (by decide)

theorem dbCreateCmd_ne (d : Derived) : dbCreateCmd d ≠ ufwEnableCmd := by
  unfold dbCreateCmd
  simp only [String.append_assoc]
  exact ne_of_take_ne_head _ _ _ 6 (by decide) (by decide)

theorem dbUserCmd_ne (d : Derived) : dbUserCmd d ≠ ufwEnableCmd := by
  unfold dbUserCmd
  simp only [String.append_assoc]
  exact ne_of_take_ne_head _ _ _ 6 (by decide) (by decide)

theorem dbGrantCmd_ne (d : Derived) : dbGrantCmd d ≠ ufwEnableCmd := by
  unfold dbGrantCmd
  simp only [String.append_assoc]
  exact ne_of_take_ne_head _ _ _ 6 (by decide) (by decide)

theorem wpMkdirCmd_ne (d : Derived) : wpMkdirCmd d ≠ ufwEnableCmd := by
  unfold wpMkdirCmd
  exact ne_of_take_ne_head _ _ _ 6 (by decide) (by decide)

theorem wpCopyCmd_ne (d : Derived) : wpCopyCmd d ≠ ufwEnableCmd := by
  unfold wpCopyCmd
  exact ne_of_take_ne_head _ _ _ 6 (by decide) (by decide)

theorem writeConfigCmd_ne (d : Derived) (rng : Nat → List Nat) :
    writeConfigCmd d rng ≠ ufwEnableCmd := by
  unfold writeConfigCmd
  simp only [String.append_assoc]
  exact ne_of_take_ne_head _ _ _ 6 (by decide) (by decide)

theorem chownCmd_ne (d : Derived) : chownCmd d ≠ ufwEnableCmd := by
  unfold chownCmd
  exact ne_of_take_ne_head _ _ _ 6 (by decide) (by decide)

theorem chmodDirCmd_ne (d : Derived) : chmodDirCmd d ≠ ufwEnableCmd := by
  unfold chmodDirCmd
  simp only [String.append_assoc]
  exact ne_of_take_ne_head _ _ _ 6 (by decide) (by decide)

theorem chmodFileCmd_ne (d : Derived) : chmodFileCmd d ≠ ufwEnableCmd := by
  unfold chmodFileCmd
  simp only [String.append_assoc]
  exact ne_of_take_ne_head _ _ _ 6 (by decide) (by decide)

theorem writeNginxCmd_ne (d : Derived) (snippet : Bool) :
    writeNginxCmd d snippet ≠ ufwEnableCmd := by
  unfold writeNginxCmd
  simp only [String.append_assoc]
  exact ne_of_take_ne_head _ _ _ 6 (by decide) (by decide)

theorem lnSiteCmd_ne (d : Derived) : lnSiteCmd d ≠ ufwEnableCmd := by
  unfold lnSiteCmd
  simp only [String.append_assoc]
  exact ne_of_take_ne_head _ _ _ 6 (by decide) (by decide)

theorem wpCoreInstallCmd_ne (d : Derived) : wpCoreInstallCmd d ≠ ufwEnableCmd := by
  unfold wpCoreInstallCmd
  simp only [String.append_assoc]
  exact ne_of_take_ne_head _ _ _ 6 (by decide) (by decide)

theorem getentCmd_ne (hostname : String) : getentCmd hostname ≠ ufwEnableCmd := by
  unfold getentCmd
  simp only [String.append_assoc]
  exact ne_of_take_ne_head _ _ _ 5 (by decide) (by decide)

theorem certCmdOf_ne (d : Derived) (cd : String) : certCmdOf d cd ≠ ufwEnableCmd := by
  unfold certCmdOf
  simp only [String.append_assoc]
  exact ne_of_take_ne_head _ _ _ 6 (by decide) (by decide)

theorem wpOptionCmd_ne (d : Derived) (opt : String) : wpOptionCmd d opt ≠ ufwEnableCmd := by
  unfold wpOptionCmd
  simp only [String.append_assoc]
  exact ne_of_take_ne_head _ _ _ 6 (by decide) (by decide)

theorem installIfMissing_emits {P : String → Prop} (host : Host) (code : Nat)
    (cmd ctx : String) (tm : Nat) (hc : P cmd) :
    Emits stageSteps P (installIfMissing host code cmd ctx tm) := by
  unfold installIfMissing
  exact Emits.iteM
    (Emits.bindM (Emits.runCheckedM _ _ _ _ hc) (fun _ => Emits.pureM _))
    (Emits.pureM _)

theorem wpCliEnsure_emits (host : Host) (code : Nat) :
    Emits stageSteps (fun c => c ≠ ufwEnableCmd) (wpCliEnsure host code) := by
  unfold wpCliEnsure
  refine Emits.iteM ?_ (Emits.pureM _)
  refine Emits.bindM (Emits.runCheckedM _ _ _ _ (by decide)) (fun _ => ?_)
  refine Emits.bindM (Emits.runCheckedM _ _ _ _ (by decide)) (fun _ => ?_)
  refine Emits.bindM (Emits.runCheckedM _ _ _ _ (by decide)) (fun _ => ?_)
  exact Emits.bindM (Emits.runCheckedM _ _ _ _ (by decide)) (fun _ => Emits.pureM _)

theorem sslCompletionEmit_emits (siteCode homeCode : Nat) :
    Emits stageSteps (fun c => c ≠ ufwEnableCmd) (sslCompletionEmit siteCode homeCode) := by
  unfold sslCompletionEmit
  exact Emits.iteM (Emits.emitM _ _ _ _ (by decide)) (Emits.emitM _ _ _ _ (by decide))

theorem stageSystemUpdate_emits (host : Host) :
    Emits stageSteps (fun c => c ≠ ufwEnableCmd) (stageSystemUpdate host) := by
  unfold stageSystemUpdate
  refine Emits.bindM (Emits.emitM _ _ _ _ (by decide)) (fun _ => ?_)
  refine Emits.bindM (Emits.runCheckedM _ _ _ _ (by decide)) (fun _ => ?_)
  exact Emits.emitM _ _ _ _ (by decide)

theorem stageNginx_emits (host : Host) :
    Emits stageSteps (fun c => c ≠ ufwEnableCmd) (stageNginx host) := by
  unfold stageNginx
  refine Emits.bindM (Emits.emitM _ _ _ _ (by decide)) (fun _ => ?_)
  refine Emits.bindM (Emits.execM _ _ _ (by decide)) (fun nginxCheck => ?_)
  refine Emits.bindM (installIfMissing_emits host _ _ _ _ (by decide)) (fun _ => ?_)
  refine Emits.bindM (Emits.runCheckedM _ _ _ _ (by decide)) (fun _ => ?_)
  exact Emits.emitM _ _ _ _ (by decide)

theorem stageDatabase_emits (host : Host) :
    Emits stageSteps (fun c => c ≠ ufwEnableCmd) (stageDatabase host) := by
  unfold stageDatabase
  refine Emits.bindM (Emits.emitM _ _ _ _ (by decide)) (fun _ => ?_)
  refine Emits.bindM (Emits.execM _ _ _ (by decide)) (fun dbCheck => ?_)
  refine Emits.bindM (installIfMissing_emits host _ _ _ _ (by decide)) (fun _ => ?_)
  refine Emits.bindM (Emits.runCheckedM _ _ _ _ (by decide)) (fun _ => ?_)
  exact Emits.emitM _ _ _ _ (by decide)

theorem stagePhp_emits (host : Host) (v : String) :
    Emits stageSteps (fun c => c ≠ ufwEnableCmd) (stagePhp host v) := by
  unfold stagePhp
  refine Emits.bindM (Emits.emitM _ _ _ _ (by decide)) (fun _ => ?_)
  refine Emits.bindM (Emits.runCheckedM _ _ _ _ (by decide)) (fun _ => ?_)
  refine Emits.bindM (Emits.runCheckedM _ _ _ _ (by decide)) (fun _ => ?_)
  refine Emits.bindM (Emits.runCheckedM _ _ _ _ (by decide)) (fun _ => ?_)
  refine Emits.bindM (Emits.runCheckedM _ _ _ _ (phpInstallCmd_ne v)) (fun _ => ?_)
  refine Emits.bindM (Emits.runCheckedM _ _ _ _ (phpFpmServiceCmd_ne v)) (fun _ => ?_)
  exact Emits.emitM _ _ _ _ (by decide)

theorem stageDbConfig_emits (host : Host) (d : Derived) :
    Emits stageSteps (fun c => c ≠ ufwEnableCmd) (stageDbConfig host d) := by
  unfold stageDbConfig
  refine Emits.bindM (Emits.emitM _ _ _ _ (by decide)) (fun _ => ?_)
  refine Emits.bindM (Emits.runCheckedM _ _ _ _ (dbCreateCmd_ne d)) (fun _ => ?_)
  refine Emits.bindM (Emits.runCheckedM _ _ _ _ (dbUserCmd_ne d)) (fun _ => ?_)
  refine Emits.bindM (Emits.runCheckedM _ _ _ _ (dbGrantCmd_ne d)) (fun _ => ?_)
  refine Emits.bindM (Emits.runCheckedM _ _ _ _ (by decide)) (fun _ => ?_)
  exact Emits.emitM _ _ _ _ (by decide)

theorem stageWordpressDl_emits (host : Host) (d : Derived) :
    Emits stageSteps (fun c => c ≠ ufwEnableCmd) (stageWordpressDl host d) := by
  unfold stageWordpressDl
  refine Emits.bindM (Emits.emitM _ _ _ _ (by decide)) (fun _ => ?_)
  refine Emits.bindM (Emits.runCheckedM _ _ _ _ (by decide)) (fun _ => ?_)
  refine Emits.bindM (Emits.runCheckedM _ _ _ _ (wpMkdirCmd_ne d)) (fun _ => ?_)
  refine Emits.bindM (Emits.runCheckedM _ _ _ _ (by decide)) (fun _ => ?_)
  refine Emits.bindM (Emits.runCheckedM _ _ _ _ (by decide)) (fun _ => ?_)
  refine Emits.bindM (Emits.runCheckedM _ _ _ _ (wpCopyCmd_ne d)) (fun _ => ?_)
  refine Emits.bindM (Emits.runCheckedM _ _ _ _ (by decide)) (fun _ => ?_)
  exact Emits.emitM _ _ _ _ (by decide)

theorem stageWpConfig_emits (host : Host) (rng : Nat → List Nat) (d : Derived) :
    Emits stageSteps (fun c => c ≠ ufwEnableCmd) (stageWpConfig host rng d) := by
  unfold stageWpConfig
  refine Emits.bindM (Emits.emitM _ _ _ _ (by decide)) (fun _ => ?_)
  refine Emits.bindM (Emits.runCheckedM _ _ _ _ (writeConfigCmd_ne d rng)) (fun _ => ?_)
  refine Emits.bindM (Emits.runCheckedM _ _ _ _ (chownCmd_ne d)) (fun _ => ?_)
  refine Emits.bindM (Emits.runCheckedM _ _ _ _ (chmodDirCmd_ne d)) (fun _ => ?_)
  refine Emits.bindM (Emits.runCheckedM _ _ _ _ (chmodFileCmd_ne d)) (fun _ => ?_)
  exact Emits.emitM _ _ _ _ (by decide)

theorem stageNginxConfig_emits (host : Host) (d : Derived) :
    Emits stageSteps (fun c => c ≠ ufwEnableCmd) (stageNginxConfig host d) := by
  unfold stageNginxConfig
  refine Emits.bindM (Emits.emitM _ _ _ _ (by decide)) (fun _ => ?_)
  refine Emits.bindM (Emits.execM _ _ _ (by decide)) (fun fastcgiSnippetCheck => ?_)
  refine Emits.bindM (Emits.runCheckedM _ _ _ _ (writeNginxCmd_ne d _)) (fun _ => ?_)
  refine Emits.bindM (Emits.runCheckedM _ _ _ _ (lnSiteCmd_ne d)) (fun _ => ?_)
  refine Emits.bindM (Emits.runCheckedM _ _ _ _ (by decide)) (fun _ => ?_)
  refine Emits.bindM (Emits.runCheckedM _ _ _ _ (by decide)) (fun _ => ?_)
  refine Emits.bindM (Emits.runCheckedM _ _ _ _ (by decide)) (fun _ => ?_)
  exact Emits.emitM _ _ _ _ (by decide)

theorem stageWpInstall_emits (host : Host) (d : Derived) :
    Emits stageSteps (fun c => c ≠ ufwEnableCmd) (stageWpInstall host d) := by
  unfold stageWpInstall
  refine Emits.bindM (Emits.emitM _ _ _ _ (by decide)) (fun _ => ?_)
  refine Emits.bindM (Emits.execM _ _ _ (by decide)) (fun wpCliCheck => ?_)
  refine Emits.bindM (wpCliEnsure_emits host _) (fun _ => ?_)
  refine Emits.bindM (Emits.runCheckedM _ _ _ _ (wpCoreInstallCmd_ne d)) (fun _ => ?_)
  exact Emits.emitM _ _ _ _ (by decide)

theorem securityTail_emits (host : Host) (d : Derived) :
    Emits stageSteps (fun _ => True) (securityTail host d) := by
  unfold securityTail
  refine Emits.bindM (Emits.runCheckedM _ _ _ _ trivial) (fun _ => ?_)
  refine Emits.bindM (Emits.runCheckedM _ _ _ _ trivial) (fun _ => ?_)
  refine Emits.bindM (Emits.runCheckedM _ _ _ _ trivial) (fun _ => ?_)
  refine Emits.bindM (Emits.runCheckedM _ _ _ _ trivial) (fun _ => ?_)
  refine Emits.bindM (Emits.runCheckedM _ _ _ _ trivial) (fun _ => ?_)
  refine Emits.bindM (Emits.runCheckedM _ _ _ _ trivial) (fun _ => ?_)
  refine Emits.bindM (Emits.runCheckedM _ _ _ _ trivial) (fun _ => ?_)
  refine Emits.bindM (Emits.runCheckedM _ _ _ _ trivial) (fun _ => ?_)
  exact Emits.emitM _ _ _ _ (by decide)

theorem stageSecurity_emits (host : Host) (d : Derived) :
    Emits stageSteps (fun _ => True) (stageSecurity host d) := by
  unfold stageSecurity
  refine Emits.bindM (Emits.emitM _ _ _ _ (by decide)) (fun _ => ?_)
  refine Emits.bindM (Emits.execM _ _ _ trivial) (fun ufwCheck => ?_)
  refine Emits.bindM (installIfMissing_emits host _ _ _ _ trivial) (fun _ => ?_)
  refine Emits.bindM (Emits.runCheckedM _ _ _ _ trivial) (fun _ => ?_)
  exact securityTail_emits host d

theorem stageSsl_emits (host : Host) (d : Derived) :
    Emits stageSteps (fun c => c ≠ ufwEnableCmd) (stageSsl host d) := by
  unfold stageSsl
  refine Emits.bindM (Emits.emitM _ _ _ _ (by decide)) (fun _ => ?_)
  refine Emits.bindM (Emits.runCheckedM _ _ _ _ (by decide)) (fun _ => ?_)
  refine Emits.bindM (Emits.execM _ _ _ (getentCmd_ne _)) (fun apexDns => ?_)
  refine Emits.bindM (Emits.execM _ _ _ (getentCmd_ne _)) (fun wwwDns => ?_)
  refine Emits.bindM (Emits.execM _ _ _ (certCmdOf_ne d _)) (fun certResult => ?_)
  refine Emits.iteM ?_ ?_
  · exact Emits.bindM (Emits.emitM _ _ _ _ (by decide)) (fun _ => Emits.pureM _)
  · refine Emits.bindM (Emits.runCheckedM _ _ _ _ (by decide)) (fun _ => ?_)
    refine Emits.bindM (Emits.execM _ _ _ (wpOptionCmd_ne d _)) (fun siteUrlUpdate => ?_)
    refine Emits.bindM (Emits.execM _ _ _ (wpOptionCmd_ne d _)) (fun homeUrlUpdate => ?_)
    exact Emits.bindM (sslCompletionEmit_emits _ _) (fun _ => Emits.pureM _)

theorem sslIfEnabled_emits (host : Host) (site : SiteConfig) (d : Derived) :
    Emits stageSteps (fun c => c ≠ ufwEnableCmd) (sslIfEnabled host site d) := by
  unfold sslIfEnabled
  exact Emits.iteM (stageSsl_emits host d) (Emits.pureM _)

theorem Emits.toTrue {S : List String} {P : String → Prop} {α : Type} {m : M α}
    (h : Emits S P m) : Emits S (fun _ => True) m :=
  Emits.mono (fun s hs => hs) (fun _ _ => trivial) h

theorem installBody_emits (host : Host) (rng : Nat → List Nat) (site : SiteConfig)
    (d : Derived) : Emits stageSteps (fun _ => True) (installBody host rng site d) := by
  unfold installBody
  refine Emits.bindM (stageSystemUpdate_emits host).toTrue (fun _ => ?_)
  refine Emits.bindM (stageNginx_emits host).toTrue (fun _ => ?_)
  refine Emits.bindM (stageDatabase_emits host).toTrue (fun _ => ?_)
  refine Emits.bindM (stagePhp_emits host _).toTrue (fun _ => ?_)
  refine Emits.bindM (stageDbConfig_emits host d).toTrue (fun _ => ?_)
  refine Emits.bindM (stageWordpressDl_emits host d).toTrue (fun _ => ?_)
  refine Emits.bindM (stageWpConfig_emits host rng d).toTrue (fun _ => ?_)
  refine Emits.bindM (stageNginxConfig_emits host d).toTrue (fun _ => ?_)
  refine Emits.bindM (stageWpInstall_emits host d).toTrue (fun _ => ?_)
  refine Emits.bindM (stageSecurity_emits host d) (fun _ => ?_)
  refine Emits.bindM (sslIfEnabled_emits host site d).toTrue (fun sslInstalled => ?_)
  refine Emits.bindM (Emits.emitM _ _ _ _ (by decide)) (fun _ => ?_)
  exact Emits.pureM _

theorem installBody_ret (host : Host) (rng : Nat → List Nat) (site : SiteConfig)
    (d : Derived) :
    RetSucceeds (fun r => r.success = true ∧ r.error = none) (installBody host rng site d) := by
  unfold installBody
  refine RetSucceeds.bindRet (fun _ => ?_)
  refine RetSucceeds.bindRet (fun _ => ?_)
  refine RetSucceeds.bindRet (fun _ => ?_)
  refine RetSucceeds.bindRet (fun _ => ?_)
  refine RetSucceeds.bindRet (fun _ => ?_)
  refine RetSucceeds.bindRet (fun _ => ?_)
  refine RetSucceeds.bindRet (fun _ => ?_)
  refine RetSucceeds.bindRet (fun _ => ?_)
  refine RetSucceeds.bindRet (fun _ => ?_)
  refine RetSucceeds.bindRet (fun _ => ?_)
  refine RetSucceeds.bindRet (fun sslInstalled => ?_)
  refine RetSucceeds.bindRet (fun _ => ?_)
  exact RetSucceeds.pureRet _ ⟨rfl, rfl⟩

theorem UfwSafe.pureUf {allow : String} {α : Type} (a : α) : UfwSafe allow (pure a : M α) :=
  fun _ => ⟨[], by simp [M_pure_apply], by simp⟩

theorem UfwSafe.throwUf {allow : String} {α : Type} (e : String) :
    UfwSafe allow (throwM e : M α) :=
  fun _ => ⟨[], by simp [throwM], by simp⟩

theorem UfwSafe.emitUf {allow : String} (st stat msg : String) (det : Option String) :
    UfwSafe allow (emit st stat msg det) :=
  fun _ => ⟨[], by simp [emit], by simp⟩

theorem UfwSafe.execUf {allow : String} (host : Host) (cmd : String) (tm : Nat)
    (h : cmd ≠ ufwEnableCmd) : UfwSafe allow (execCommandWithTimeout host cmd tm) := by
  intro t
  refine ⟨[cmd], ?_, fun hin => absurd (List.mem_singleton.mp hin).symm h⟩
  unfold execCommandWithTimeout
  cases host t.cmds.length cmd <;> simp

theorem UfwSafe.runCheckedUf {allow : String} (host : Host) (cmd ctx : String) (tm : Nat)
    (h : cmd ≠ ufwEnableCmd) : UfwSafe allow (runCheckedCommand host cmd ctx tm) := by
  unfold runCheckedCommand
  exact UfwSafe.bindUf (UfwSafe.execUf host cmd tm h)
    (fun r => UfwSafe.iteUf (UfwSafe.throwUf _) (UfwSafe.pureUf r))

theorem installIfMissing_ufwSafe {allow : String} (host : Host) (code : Nat)
    (cmd ctx : String) (tm : Nat) (h : cmd ≠ ufwEnableCmd) :
    UfwSafe allow (installIfMissing host code cmd ctx tm) := by
  unfold installIfMissing
  exact UfwSafe.iteUf
    (UfwSafe.bindUf (UfwSafe.runCheckedUf host cmd ctx tm h) (fun _ => UfwSafe.pureUf _))
    (UfwSafe.pureUf _)

theorem stageSecurity_ufwSafe (host : Host) (d : Derived) :
    UfwSafe (ufwAllowPortCmd d.effectiveSshPort) (stageSecurity host d) := by
  unfold stageSecurity
  refine UfwSafe.bindUf (UfwSafe.emitUf _ _ _ _) (fun _ => ?_)
  refine UfwSafe.bindUf (UfwSafe.execUf _ _ _ (by decide)) (fun ufwCheck => ?_)
  refine UfwSafe.bindUf (installIfMissing_ufwSafe host _ _ _ _ (by decide)) (fun _ => ?_)
  apply UfwSafe.allow_bind
  intro r
  exact securityTail_emits host d

theorem UfwSafe.of_ne_emits {allow : String} {S : List String} {α : Type} {m : M α}
    (h : Emits S (fun c => c ≠ ufwEnableCmd) m) : UfwSafe allow m :=
  UfwSafe.of_emits (fun _ hc => hc) h

theorem installBody_ufwSafe (host : Host) (rng : Nat → List Nat) (site : SiteConfig)
    (d : Derived) :
    UfwSafe (ufwAllowPortCmd d.effectiveSshPort) (installBody host rng site d) := by
  unfold installBody
  refine UfwSafe.bindUf (UfwSafe.of_ne_emits (stageSystemUpdate_emits host)) (fun _ => ?_)
  refine UfwSafe.bindUf (UfwSafe.of_ne_emits (stageNginx_emits host)) (fun _ => ?_)
  refine UfwSafe.bindUf (UfwSafe.of_ne_emits (stageDatabase_emits host)) (fun _ => ?_)
  refine UfwSafe.bindUf (UfwSafe.of_ne_emits (stagePhp_emits host _)) (fun _ => ?_)
  refine UfwSafe.bindUf (UfwSafe.of_ne_emits (stageDbConfig_emits host d)) (fun _ => ?_)
  refine UfwSafe.bindUf (UfwSafe.of_ne_emits (stageWordpressDl_emits host d)) (fun _ => ?_)
  refine UfwSafe.bindUf (UfwSafe.of_ne_emits (stageWpConfig_emits host rng d)) (fun _ => ?_)
  refine UfwSafe.bindUf (UfwSafe.of_ne_emits (stageNginxConfig_emits host d)) (fun _ => ?_)
  refine UfwSafe.bindUf (UfwSafe.of_ne_emits (stageWpInstall_emits host d)) (fun _ => ?_)
  refine UfwSafe.bindUf (stageSecurity_ufwSafe host d) (fun _ => ?_)
  refine UfwSafe.bindUf (UfwSafe.of_ne_emits (sslIfEnabled_emits host site d))
    (fun sslInstalled => ?_)
  refine UfwSafe.bindUf (UfwSafe.emitUf _ _ _ _) (fun _ => ?_)
  exact UfwSafe.pureUf _

theorem installWordPress_ufwSafe (host : Host) (rng : Nat → List Nat) (site : SiteConfig)
    (port : Nat) :
    UfwSafe (ufwAllowPortCmd (if 1 ≤ port ∧ port ≤ 65535 then port else 22))
      (installWordPress host rng site port) := by
  unfold installWordPress
  by_cases hdom : isValidDomain (normalizeDomain site.domain) = false
  · simp only [hdom, if_pos]
    exact UfwSafe.throwUf _
  · rw [if_neg hdom]
    cases hp : parsePhpVersion site.phpVersion with
    | none => exact UfwSafe.throwUf _
    | some v =>
      refine UfwSafe.tryCatchUf ?_ (fun e => ?_)
      · exact installBody_ufwSafe host rng site (mkDerived site rng port (normalizeDomain site.domain) v)
      · unfold installCatch
        exact UfwSafe.bindUf (UfwSafe.emitUf _ _ _ _) (fun _ => UfwSafe.pureUf _)

theorem terminalCount_zero_of_steps {Δ : List Event}
    (h : ∀ e ∈ Δ, e.step ∈ stageSteps) : terminalCount Δ = 0 := by
  unfold terminalCount
  rw [List.countP_eq_zero]
  intro e he
  have hs := h e he
  simp only [stageSteps, List.mem_cons, List.not_mem_nil, or_false] at hs
  rcases hs with h1 | h1 | h1 | h1 | h1 | h1 | h1 | h1 | h1 | h1 | h1 | h1 <;>
    simp [isTerminalRecord, h1]

theorem installCatch_apply (e : String) (t : Trace) :
    installCatch e t =
      (Except.ok (failResult e),
        { t with events := t.events ++ [⟨"error", "failed", e, none⟩] }) := rfl

/-- Trace shape of one orchestrator run: the events and commands only grow; a
thrown validation error leaves the trace untouched; a returned record is
either the success record with no terminal event emitted below route level, or
the failure record whose single `error` event closes the appended events. -/
theorem installWordPress_shape (host : Host) (rng : Nat → List Nat) (site : SiteConfig)
    (port : Nat) (t : Trace) :
    ∃ Δe Δc,
      (installWordPress host rng site port t).2.events = t.events ++ Δe ∧
      (installWordPress host rng site port t).2.cmds = t.cmds ++ Δc ∧
      ((∃ msg, (installWordPress host rng site port t).1 = Except.error msg ∧
          Δe = [] ∧ Δc = []) ∨
       (∃ res, (installWordPress host rng site port t).1 = Except.ok res ∧
         ((res.success = true ∧ res.error = none ∧ terminalCount Δe = 0) ∨
          (∃ e Δp, res.success = false ∧ res.error = some e ∧
            Δe = Δp ++ [⟨"error", "failed", e, none⟩] ∧ terminalCount Δp = 0)))) := by
  by_cases hdom : isValidDomain (normalizeDomain site.domain) = false
  · have hrun : installWordPress host rng site port t = (Except.error domainInvalidMsg, t) := by
      simp [installWordPress, hdom, throwM]
    rw [hrun]
    exact ⟨[], [], by simp, by simp, Or.inl ⟨domainInvalidMsg, rfl, rfl, rfl⟩⟩
  · cases hp : parsePhpVersion site.phpVersion with
    | none =>
      have hrun : installWordPress host rng site port t = (Except.error phpInvalidMsg, t) := by
        simp [installWordPress, hdom, hp, throwM]
      rw [hrun]
      exact ⟨[], [], by simp, by simp, Or.inl ⟨phpInvalidMsg, rfl, rfl, rfl⟩⟩
    | some v =>
      have hrun : installWordPress host rng site port t =
          tryCatchM (installBody host rng site
            (mkDerived site rng port (normalizeDomain site.domain) v)) installCatch t := by
        simp [installWordPress, hdom, hp]
      rw [hrun]
      obtain ⟨Δe, Δc, he, hc, hse, _⟩ :=
        installBody_emits host rng site (mkDerived site rng port (normalizeDomain site.domain) v) t
      unfold tryCatchM
      cases hb : installBody host rng site
          (mkDerived site rng port (normalizeDomain site.domain) v) t with
      | mk r t' =>
        rw [hb] at he hc
        cases r with
        | ok res =>
          have hsucc := installBody_ret host rng site
            (mkDerived site rng port (normalizeDomain site.domain) v) t res t' hb
          exact ⟨Δe, Δc, he, hc,
            Or.inr ⟨res, rfl, Or.inl ⟨hsucc.1, hsucc.2, terminalCount_zero_of_steps hse⟩⟩⟩
        | error e =>
          dsimp only
          rw [installCatch_apply]
          refine ⟨Δe ++ [⟨"error", "failed", e, none⟩], Δc, ?_, hc, ?_⟩
          · rw [show t'.events = t.events ++ Δe from he, List.append_assoc]
          · exact Or.inr ⟨failResult e, rfl,
              Or.inr ⟨e, Δe, rfl, rfl, rfl, terminalCount_zero_of_steps hse⟩⟩

theorem terminalCount_append (a b : List Event) :
    terminalCount (a ++ b) = terminalCount a + terminalCount b :=
  List.countP_append _ _ _

theorem terminalCount_errorEvent (msg : String) (det : Option String) :
    terminalCount [⟨"error", "failed", msg, det⟩] = 1 := by
  simp [terminalCount, isTerminalRecord, List.countP_cons]

theorem terminalCount_routeT0 : terminalCount routeT0.events = 0 := by decide

theorem terminalCount_doneEvent :
    terminalCount [⟨"done", "completed", "Installation complete!", none⟩] = 1 := by decide

/-- Terminal-record census of one route run: a failed connection yields one
error record and no `conn.end()`; with a connection, `end()` is always reached
and the stream carries exactly one terminal record — except when the
orchestrator catches a mandatory-stage failure, where its own `error` event
and the route's `error` record make two. -/
theorem routeStart_spec (connect : Except String Unit) (host : Host) (rng : Nat → List Nat)
    (site : SiteConfig) (port : Nat) :
    (∀ msg, connect = Except.error msg →
      terminalCount (routeStart connect host rng site port).records = 1 ∧
      (routeStart connect host rng site port).endCalled = false) ∧
    (connect = Except.ok () →
      (routeStart connect host rng site port).endCalled = true ∧
      (∀ res t', installWordPress host rng site port routeT0 = (Except.ok res, t') →
        terminalCount (routeStart connect host rng site port).records =
          (if res.success = true then 1 else 2)) ∧
      (∀ msg t', installWordPress host rng site port routeT0 = (Except.error msg, t') →
        terminalCount (routeStart connect host rng site port).records = 1)) := by
  constructor
  · intro msg hmsg
    subst hmsg
    constructor
    · simp [routeStart, terminalCount, List.countP_cons, isTerminalRecord,
        connectingRunningEvent]
    · rfl
  · intro hok
    subst hok
    obtain ⟨Δe, Δc, he, hc, hcase⟩ := installWordPress_shape host rng site port routeT0
    unfold routeStart
    cases hrun : installWordPress host rng site port routeT0 with
    | mk r t =>
      rw [hrun] at he hc hcase
      have he' : t.events = routeT0.events ++ Δe := he
      cases r with
      | ok res =>
        have hshape : (res.success = true ∧ res.error = none ∧ terminalCount Δe = 0) ∨
            (∃ e Δp, res.success = false ∧ res.error = some e ∧
              Δe = Δp ++ [⟨"error", "failed", e, none⟩] ∧ terminalCount Δp = 0) := by
          rcases hcase with ⟨msg, hmsg, _, _⟩ | ⟨res', hres', hspec⟩
          · exact absurd hmsg (by simp)
          · have h2 : (Except.ok res : Except String InstallResult) = Except.ok res' := hres'
            injection h2 with h3
            rw [h3]
            exact hspec
        refine ⟨?_, ?_, ?_⟩
        · dsimp only
          split <;> rfl
        · intro res2 t2 hrun2
          have h2 : (Except.ok res : Except String InstallResult) = Except.ok res2 :=
            congrArg Prod.fst hrun2
          injection h2 with h3
          subst h3
          dsimp only
          rcases hshape with ⟨hsucc, _, hterm⟩ | ⟨e, Δp, hsucc, _, hΔe, hterm⟩
          · rw [if_pos hsucc, if_pos hsucc]
            dsimp only
            rw [terminalCount_append, he', terminalCount_append, terminalCount_routeT0,
              hterm, terminalCount_doneEvent]
          · rw [if_neg (by rw [hsucc]; exact Bool.false_ne_true),
              if_neg (by rw [hsucc]; exact Bool.false_ne_true)]
            dsimp only
            rw [terminalCount_append, he', hΔe, terminalCount_append, terminalCount_routeT0,
              terminalCount_append, hterm, terminalCount_errorEvent, terminalCount_errorEvent]
        · intro msg t2 hrun2
          have h2 : (Except.ok res : Except String InstallResult) = Except.error msg :=
            congrArg Prod.fst hrun2
          exact Except.noConfusion h2
      | error e =>
        have hΔ : Δe = [] := by
          rcases hcase with ⟨msg, hmsg, hΔe, hΔc⟩ | ⟨res', hres', _⟩
          · exact hΔe
          · exact Except.noConfusion hres'
        refine ⟨rfl, ?_, ?_⟩
        · intro res2 t2 hrun2
          have h2 : (Except.error e : Except String InstallResult) = Except.ok res2 :=
            congrArg Prod.fst hrun2
          exact Except.noConfusion h2
        · intro msg2 t2 hrun2
          have h2 : (Except.error e : Except String InstallResult) = Except.error msg2 :=
            congrArg Prod.fst hrun2
          injection h2 with h3
          dsimp only
          rw [terminalCount_append, he', hΔ, List.append_nil, terminalCount_routeT0,
            terminalCount_errorEvent]

theorem connStep_stable (s : ConnState) (e : ConnEvent) (h1 : s.settled = true)
    (h2 : s.timerActive = false) : connStep s e = s := by
  cases e <;> simp [connStep, h1, h2]

theorem connRun_fixed (s : ConnState) (h1 : s.settled = true) (h2 : s.timerActive = false) :
    ∀ evs : List ConnEvent, evs.foldl connStep s = s := by
  intro evs
  induction evs with
  | nil => rfl
  | cons e rest ih => rw [List.foldl_cons, connStep_stable s e h1 h2]; exact ih

theorem connStep_init_settles (e : ConnEvent) :
    (connStep connInit e).settled = true ∧ (connStep connInit e).timerActive = false := by
  cases e <;> simp [connStep, connInit]

theorem connRun_cons (e : ConnEvent) (rest : List ConnEvent) :
    connRun (e :: rest) = connStep connInit e := by
  unfold connRun
  rw [List.foldl_cons]
  exact connRun_fixed _ (connStep_init_settles e).1 (connStep_init_settles e).2 rest

def okHost : Host := fun _ _ => ExecOutcome.ok "" "" 0

def site0 : SiteConfig :=
  { domain := "example.com", siteTitle := "My Site", adminUser := "admin",
    adminEmail := "admin@example.com", enableSSL := false, phpVersion := "8.3" }

def siteSsl : SiteConfig :=
  { domain := "example.com", siteTitle := "My Site", adminUser := "admin",
    adminEmail := "admin@example.com", enableSSL := true, phpVersion := "8.3" }

def siteBadDomain : SiteConfig :=
  { domain := "bad_domain!", siteTitle := "My Site", adminUser := "admin",
    adminEmail := "admin@example.com", enableSSL := false, phpVersion := "8.3" }

def rng0 : Nat → List Nat := fun _ => List.replicate 64 0

/-- The `Derived` record of the `example.com` runs below. -/
def d0 : Derived := mkDerived site0 rng0 22 (normalizeDomain site0.domain) "8.3"

/-- All commands succeed, every presence pre-check reports the tool already
present: a fully provisioned host. -/
def hostDbFail (c : Nat) : Host := fun i _ =>
  if i = 3 then ExecOutcome.ok "" "" 1
  else if i = 4 then ExecOutcome.ok "" "boom" c
  else ExecOutcome.ok "" "" 0

/-- Everything succeeds except `sudo nginx -t` (invocation 28). -/
def hostNginxTestFail : Host := fun i _ =>
  if i = 28 then ExecOutcome.ok "" "nginx: test failed" 1 else ExecOutcome.ok "" "" 0

/-- Everything succeeds but the fastcgi snippet probe (invocation 24) reports
the snippet absent. -/
def hostNoSnippet : Host := fun i _ =>
  if i = 24 then ExecOutcome.ok "" "" 1 else ExecOutcome.ok "" "" 0

/-- SSL run: the bare domain resolves to `1.2.3.4`, the `www` subdomain to
`5.6.7.8`, and the certbot invocation (45) succeeds. -/
def hostSslMismatchOk : Host := fun i _ =>
  if i = 43 then ExecOutcome.ok "1.2.3.4" "" 0
  else if i = 44 then ExecOutcome.ok "5.6.7.8" "" 0
  else ExecOutcome.ok "" "" 0

/-- SSL run: same DNS mismatch, but the certbot invocation fails. -/
def hostSslMismatchCertFail : Host := fun i _ =>
  if i = 43 then ExecOutcome.ok "1.2.3.4" "" 0
  else if i = 44 then ExecOutcome.ok "5.6.7.8" "" 0
  else if i = 45 then ExecOutcome.ok "" "challenge failed" 1
  else ExecOutcome.ok "" "" 0

/-- SSL run: the `www` subdomain does not resolve at all, certbot fails. -/
def hostSslNoWwwCertFail : Host := fun i _ =>
  if i = 43 then ExecOutcome.ok "1.2.3.4" "" 0
  else if i = 45 then ExecOutcome.ok "" "challenge failed" 1
  else ExecOutcome.ok "" "" 0

/-- Does `pat` occur as a contiguous substring of `l`? -/
def listContainsSub (pat : List Char) : List Char → Bool
  | [] => listStartsWith pat []
  | c :: cs => listStartsWith pat (c :: cs) || listContainsSub pat cs

/-- Claim C7 (counterexample): `generatePassword 20` — the admin-password
call — ignores every random byte beyond the 15th, so the password is *not* a
function of at least 16 independent random bytes: two byte strings that differ
inside their first 16 bytes yield the same password. -/
theorem claim_C7_counterexample :
    generatePassword 20 (List.replicate 20 0) =
      generatePassword 20 (List.replicate 15 0 ++ List.replicate 5 63) ∧
    (List.replicate 20 0).take 16 ≠ (List.replicate 15 0 ++ List.replicate 5 63).take 16 ∧
    (List.replicate 20 0).length = 20 ∧
    (List.replicate 15 0 ++ List.replicate 5 63).length = 20 ∧
    (∀ b ∈ List.replicate 20 0, b < 256) ∧
    (∀ b ∈ List.replicate 15 0 ++ List.replicate 5 63, b < 256) := by decide

/-- Claim C7 (amended): the database password (`generatePassword 32`)
determines its first 24 random bytes (192 bits of entropy, as claimed), while
the admin password (`generatePassword 20`) determines only its first 15 random
bytes (120 bits, not the claimed 16 bytes / 128 bits). -/
theorem claim_C7_amended :
    (∀ xs ys : List Nat, xs.length = 32 → ys.length = 32 →
      (∀ b ∈ xs, b < 256) → (∀ b ∈ ys, b < 256) →
      generatePassword 32 xs = generatePassword 32 ys → xs.take 24 = ys.take 24) ∧
    (∀ xs ys : List Nat, xs.length = 20 → ys.length = 20 →
      (∀ b ∈ xs, b < 256) → (∀ b ∈ ys, b < 256) →
      generatePassword 20 xs = generatePassword 20 ys → xs.take 15 = ys.take 15) := by
  constructor
  · intro xs ys hx hy hxb hyb h
    have h24 := generatePassword_take_inj 32 xs ys (by norm_num) hx hy hxb hyb h
    norm_num at h24
    exact h24
  · intro xs ys hx hy hxb hyb h
    have h15 := generatePassword_take_inj 20 xs ys (by norm_num) hx hy hxb hyb h
    norm_num at h15
    exact h15

/-- Claim C7 (witness): the amended statement applied at concrete byte
strings. -/
theorem claim_C7_witness :
    (List.replicate 32 7).take 24 = (List.replicate 32 7).take 24 ∧
    (List.replicate 20 9).take 15 = (List.replicate 20 9).take 15 :=
  ⟨claim_C7_amended.1 _ _ (by decide) (by decide) (by decide) (by decide) rfl,
   claim_C7_amended.2 _ _ (by decide) (by decide) (by decide) (by decide) rfl⟩

/-- Claim C8: the defensive `createSSHConnection` settles on the first
observed event; if the 20-second guard timer fires before the transport is
ready, the attempt rejects with the timeout error *and* `conn.end()` has been
called; a transport that closes before ready rejects with the close error
rather than hanging or resolving; `ready` resolves. -/
theorem claim_C8 :
    (∀ rest : List ConnEvent,
      (connRun (ConnEvent.timerFires :: rest)).result = some (Except.error connTimeoutMsg) ∧
      (connRun (ConnEvent.timerFires :: rest)).endCalled = true) ∧
    (∀ rest : List ConnEvent,
      (connRun (ConnEvent.closed :: rest)).result = some (Except.error connClosedMsg)) ∧
    (∀ (e : ConnEvent) (rest : List ConnEvent), (connRun (e :: rest)).settled = true) ∧
    (∀ rest : List ConnEvent,
      (connRun (ConnEvent.ready :: rest)).result = some (Except.ok ())) := by
  refine ⟨fun rest => ?_, fun rest => ?_, fun e rest => ?_, fun rest => ?_⟩
  · rw [connRun_cons]; exact ⟨rfl, rfl⟩
  · rw [connRun_cons]; rfl
  · rw [connRun_cons]; exact (connStep_init_settles e).1
  · rw [connRun_cons]; rfl

/-- Claim C9: with the `n` random bytes `crypto.randomBytes(n)` returns,
`generatePassword n` produces exactly `n` characters, all drawn from the
base64url alphabet, hence never a single quote, double quote, backtick,
backslash or whitespace — so the raw interpolations into the `IDENTIFIED BY`
statement and the wp-config here-document cannot break the surrounding
quoting. -/
theorem claim_C9 (n : Nat) (bytes : List Nat) (h1 : bytes.length = n) :
    (generatePassword n bytes).data.length = n ∧
    ∀ c ∈ (generatePassword n bytes).data, c ∈ b64Alphabet ∧
      c ≠ Char.ofNat 39 ∧ c ≠ Char.ofNat 34 ∧ c ≠ Char.ofNat 96 ∧ c ≠ Char.ofNat 92 ∧
      c ≠ ' ' ∧ c ≠ '\t' ∧ c ≠ '\n' ∧ c ≠ '\r' := by
  have hglen : n ≤ ((b64Groups (bytes.take n)).map b64urlChar).length := by
    rw [List.length_map]
    calc n = (bytes.take n).length := by rw [List.length_take, h1]; omega
    _ ≤ (b64Groups (bytes.take n)).length := b64Groups_length_ge _
  constructor
  · show (((b64Groups (bytes.take n)).map b64urlChar).take n).length = n
    rw [List.length_take]
    omega
  · intro c hc
    have hc' : c ∈ (b64Groups (bytes.take n)).map b64urlChar := List.mem_of_mem_take hc
    obtain ⟨d, _, rfl⟩ := List.mem_map.mp hc'
    have hmem := b64urlChar_mem d
    have hall : ∀ x ∈ b64Alphabet, x ≠ Char.ofNat 39 ∧ x ≠ Char.ofNat 34 ∧
        x ≠ Char.ofNat 96 ∧ x ≠ Char.ofNat 92 ∧ x ≠ ' ' ∧ x ≠ '\t' ∧ x ≠ '\n' ∧
        x ≠ '\r' := by decide
    exact ⟨hmem, hall _ hmem⟩

/-- Claim C9 (witness): the statement applied to four concrete random
bytes. -/
theorem claim_C9_witness :
    (generatePassword 4 [0, 255, 10, 77]).data.length = 4 ∧
    ∀ c ∈ (generatePassword 4 [0, 255, 10, 77]).data, c ∈ b64Alphabet ∧
      c ≠ Char.ofNat 39 ∧ c ≠ Char.ofNat 34 ∧ c ≠ Char.ofNat 96 ∧ c ≠ Char.ofNat 92 ∧
      c ≠ ' ' ∧ c ≠ '\t' ∧ c ≠ '\n' ∧ c ≠ '\r' :=
  claim_C9 4 [0, 255, 10, 77] (by decide)

/-- Claim C5: in every run, whenever the `ufw --force enable` enforcement
command is issued, the `ufw allow <port>/tcp` rule for the session's own
(validated) ssh port appears strictly earlier in the issued command
sequence. -/
theorem claim_C5 (host : Host) (rng : Nat → List Nat) (site : SiteConfig) (port : Nat)
    (h : ufwEnableCmd ∈ (installWordPress host rng site port ⟨[], []⟩).2.cmds) :
    [ufwAllowPortCmd (if 1 ≤ port ∧ port ≤ 65535 then port else 22), ufwEnableCmd].Sublist
      (installWordPress host rng site port ⟨[], []⟩).2.cmds := by
  obtain ⟨Δc, hc, hs⟩ := installWordPress_ufwSafe host rng site port ⟨[], []⟩
  rw [List.nil_append] at hc
  rw [hc] at h ⊢
  exact hs h

/-- Claim C5 (witness): on the all-success host the enforcement command is
issued, and the allow rule for port 22 precedes it. -/
theorem claim_C5_witness :
    ufwEnableCmd ∈ (installWordPress okHost rng0 site0 22 ⟨[], []⟩).2.cmds ∧
    [ufwAllowPortCmd (if 1 ≤ 22 ∧ 22 ≤ 65535 then 22 else 22), ufwEnableCmd].Sublist
      (installWordPress okHost rng0 site0 22 ⟨[], []⟩).2.cmds :=
  ⟨by decide, claim_C5 okHost rng0 site0 22 (by decide)⟩

/-- Claim C10: an invalid normalized domain, or (with a valid domain) an
unsupported PHP version, makes `installWordPress` throw before emitting any
progress event or issuing any remote command — the trace is untouched — and at
route level such a thrown error becomes the run's single terminal `error`
record, with no commands issued and the connection still closed. -/
theorem claim_C10 (host : Host) (rng : Nat → List Nat) (site : SiteConfig) (port : Nat)
    (t : Trace) :
    (isValidDomain (normalizeDomain site.domain) = false →
      installWordPress host rng site port t = (Except.error domainInvalidMsg, t)) ∧
    (parsePhpVersion site.phpVersion = none →
      isValidDomain (normalizeDomain site.domain) = true →
      installWordPress host rng site port t = (Except.error phpInvalidMsg, t)) ∧
    (∀ msg, installWordPress host rng site port routeT0 = (Except.error msg, routeT0) →
      routeStart (Except.ok ()) host rng site port =
        { records := [connectingRunningEvent, connectingCompletedEvent,
            ⟨"error", "failed", msg, none⟩],
          completion := none, cmds := [], endCalled := true }) := by
  refine ⟨fun h => ?_, fun hp h => ?_, fun msg h => ?_⟩
  · simp [installWordPress, h, throwM]
  · simp [installWordPress, h, hp, throwM]
  · unfold routeStart
    rw [h]
    rfl

/-- Claim C10 (witness): the statement applied to a malformed domain. -/
theorem claim_C10_witness :
    installWordPress okHost rng0 siteBadDomain 22 routeT0 =
      (Except.error domainInvalidMsg, routeT0) ∧
    routeStart (Except.ok ()) okHost rng0 siteBadDomain 22 =
      { records := [connectingRunningEvent, connectingCompletedEvent,
          ⟨"error", "failed", domainInvalidMsg, none⟩],
        completion := none, cmds := [], endCalled := true } := by
  have h := claim_C10 okHost rng0 siteBadDomain 22 routeT0
  have h1 := h.1 (by decide)
  exact ⟨h1, h.2.2 domainInvalidMsg h1⟩

/-- Claim C1 (counterexample): on a host whose database-server install fails,
the stream receives *two* terminal `error` records — one emitted by the
orchestrator's catch block and one by the route's else branch — so "exactly
one terminal progress record" is false on the code. -/
theorem claim_C1_counterexample :
    terminalCount (routeStart (Except.ok ()) (hostDbFail 100) rng0 site0 22).records = 2 ∧
    (routeStart (Except.ok ()) (hostDbFail 100) rng0 site0 22).records.countP
      (fun e => e.step == "error") = 2 := by decide

/-- Claim C1 (amended): a failed connection yields exactly one terminal record
and no `conn.end()` (there is no session to close); once the connection is
established `conn.end()` is reached on every exit path, and the stream carries
exactly one terminal record — except that a caught mandatory-stage failure
yields exactly two `error` records (the orchestrator's and the route's). -/
theorem claim_C1_amended (connect : Except String Unit) (host : Host) (rng : Nat → List Nat)
    (site : SiteConfig) (port : Nat) :
    (∀ msg, connect = Except.error msg →
      terminalCount (routeStart connect host rng site port).records = 1 ∧
      (routeStart connect host rng site port).endCalled = false) ∧
    (connect = Except.ok () →
      (routeStart connect host rng site port).endCalled = true ∧
      (∀ res t', installWordPress host rng site port routeT0 = (Except.ok res, t') →
        terminalCount (routeStart connect host rng site port).records =
          (if res.success = true then 1 else 2)) ∧
      (∀ msg t', installWordPress host rng site port routeT0 = (Except.error msg, t') →
        terminalCount (routeStart connect host rng site port).records = 1)) :=
  routeStart_spec connect host rng site port

/-- The success record of the all-success `example.com` run. -/
def resOk0 : InstallResult :=
  { success := true, sslInstalled := false, adminPassword := "AAAAAAAAAAAAAAAAAAAA",
    dbName := "wp_example_com", dbUser := "wp_example_com",
    dbPassword := "AAAAAAAAAAAAAAAAAAAAAAAAAAAAAAAA", error := none }

/-- Claim C1 (witness): the amended statement applied to the all-success
host. -/
theorem claim_C1_witness :
    (routeStart (Except.ok ()) okHost rng0 site0 22).endCalled = true ∧
    terminalCount (routeStart (Except.ok ()) okHost rng0 site0 22).records = 1 := by
  have h := (claim_C1_amended (Except.ok ()) okHost rng0 site0 22).2 rfl
  refine ⟨h.1, ?_⟩
  have hfst : (installWordPress okHost rng0 site0 22 routeT0).1 = Except.ok resOk0 := by
    decide
  have hpair : installWordPress okHost rng0 site0 22 routeT0 =
      (Except.ok resOk0, (installWordPress okHost rng0 site0 22 routeT0).2) := by
    rw [← hfst]
  have h2 := h.2.1 resOk0 (installWordPress okHost rng0 site0 22 routeT0).2 hpair
  simpa using h2

/-- Claim C2 (counterexample): when the database-server install exits non-zero
the run does stop there with the annotated failure, but the terminal progress
event's stage identifier is the literal `error`, not the failing stage's
identifier `database` — no `(database, failed)` event exists. -/
theorem claim_C2_counterexample :
    (installWordPress (hostDbFail 100) rng0 site0 22 ⟨[], []⟩).2.cmds.getLast? =
      some mariadbInstallCmd ∧
    ((installWordPress (hostDbFail 100) rng0 site0 22 ⟨[], []⟩).2.events.getLast?).map
      Event.step = some "error" ∧
    (∀ e ∈ (installWordPress (hostDbFail 100) rng0 site0 22 ⟨[], []⟩).2.events,
      ¬(e.step = "database" ∧ e.status = "failed")) := by decide

/-- Claim C2 (amended): for every non-zero exit code of the database-server
install, the run terminates at that stage with the `CommandFailure` error
annotated with the stage context, no later command is issued (the command list
ends at the failing install), and the terminal event is the single `error`
record carrying that annotated message. -/
theorem claim_C2_amended (c : Nat) (hc : c ≠ 0) :
    installWordPress (hostDbFail c) rng0 site0 22 ⟨[], []⟩ =
      (Except.ok (failResult "MariaDB installation failed: boom"),
       ⟨[⟨"system-update", "running", "Updating system packages...", none⟩,
         ⟨"system-update", "completed", "System packages updated", none⟩,
         ⟨"nginx", "running", "Installing Nginx...", none⟩,
         ⟨"nginx", "completed", "Nginx installed and running", none⟩,
         ⟨"database", "running", "Installing MariaDB...", none⟩,
         ⟨"error", "failed", "MariaDB installation failed: boom", none⟩],
        [aptUpdateCmd, nginxCheckCmd, nginxServiceCmd, dbCheckCmd, mariadbInstallCmd]⟩) := by
  obtain ⟨n, rfl⟩ : ∃ n, c = n + 1 := ⟨c - 1, by omega⟩
  rfl

/-- Claim C2 (witness): the amended statement at exit code 100. -/
theorem claim_C2_witness :
    installWordPress (hostDbFail 100) rng0 site0 22 ⟨[], []⟩ =
      (Except.ok (failResult "MariaDB installation failed: boom"),
       ⟨[⟨"system-update", "running", "Updating system packages...", none⟩,
         ⟨"system-update", "completed", "System packages updated", none⟩,
         ⟨"nginx", "running", "Installing Nginx...", none⟩,
         ⟨"nginx", "completed", "Nginx installed and running", none⟩,
         ⟨"database", "running", "Installing MariaDB...", none⟩,
         ⟨"error", "failed", "MariaDB installation failed: boom", none⟩],
        [aptUpdateCmd, nginxCheckCmd, nginxServiceCmd, dbCheckCmd, mariadbInstallCmd]⟩) :=
  claim_C2_amended 100 (by decide)

/-- The `Derived` record of the `example.com` runs with TLS requested. -/
def dSsl : Derived := mkDerived siteSsl rng0 22 (normalizeDomain siteSsl.domain) "8.3"

/-- Claim C3 (counterexample): with TLS requested and `www.example.com`
resolving to a different IPv4 address than `example.com`, the certificate
command does request the bare domain only — but when that bare-domain issuance
*succeeds*, the final result has `sslEnabled = true` and an `https://` site
URL, contradicting the claimed `sslEnabled = false` / `http://` outcome. -/
theorem claim_C3_counterexample :
    certCmdOf dSsl ("-d " ++ shellEscape "example.com") ∈
      (routeStart (Except.ok ()) hostSslMismatchOk rng0 siteSsl 22).cmds ∧
    certCmdOf dSsl ("-d " ++ shellEscape "example.com" ++ " -d " ++
        shellEscape "www.example.com") ∉
      (routeStart (Except.ok ()) hostSslMismatchOk rng0 siteSsl 22).cmds ∧
    (routeStart (Except.ok ()) hostSslMismatchOk rng0 siteSsl 22).completion =
      some { siteUrl := "https://example.com", adminUrl := "https://example.com/wp-admin",
             adminUser := "admin", adminPassword := "AAAAAAAAAAAAAAAAAAAA",
             dbName := "wp_example_com", dbUser := "wp_example_com",
             dbPassword := "AAAAAAAAAAAAAAAAAAAAAAAAAAAAAAAA",
             sslRequested := true, sslEnabled := true } := by decide

/-- Claim C3 (amended): under a `www` mismatch (different address, or no
address at all) the certificate command requests the bare domain only, and a
certificate-issuance failure does not abort the run: the final result still
has `success = true` with `sslRequested = true`, `sslEnabled = false` and an
`http://` site URL. (When the bare-domain issuance succeeds, TLS activates
instead.) -/
theorem claim_C3_amended :
    (certCmdOf dSsl ("-d " ++ shellEscape "example.com") ∈
       (routeStart (Except.ok ()) hostSslMismatchCertFail rng0 siteSsl 22).cmds ∧
     certCmdOf dSsl ("-d " ++ shellEscape "example.com" ++ " -d " ++
         shellEscape "www.example.com") ∉
       (routeStart (Except.ok ()) hostSslMismatchCertFail rng0 siteSsl 22).cmds ∧
     (routeStart (Except.ok ()) hostSslMismatchCertFail rng0 siteSsl 22).completion =
       some { siteUrl := "http://example.com", adminUrl := "http://example.com/wp-admin",
              adminUser := "admin", adminPassword := "AAAAAAAAAAAAAAAAAAAA",
              dbName := "wp_example_com", dbUser := "wp_example_com",
              dbPassword := "AAAAAAAAAAAAAAAAAAAAAAAAAAAAAAAA",
              sslRequested := true, sslEnabled := false }) ∧
    (certCmdOf dSsl ("-d " ++ shellEscape "example.com") ∈
       (routeStart (Except.ok ()) hostSslNoWwwCertFail rng0 siteSsl 22).cmds ∧
     certCmdOf dSsl ("-d " ++ shellEscape "example.com" ++ " -d " ++
         shellEscape "www.example.com") ∉
       (routeStart (Except.ok ()) hostSslNoWwwCertFail rng0 siteSsl 22).cmds ∧
     (routeStart (Except.ok ()) hostSslNoWwwCertFail rng0 siteSsl 22).completion =
       some { siteUrl := "http://example.com", adminUrl := "http://example.com/wp-admin",
              adminUser := "admin", adminPassword := "AAAAAAAAAAAAAAAAAAAA",
              dbName := "wp_example_com", dbUser := "wp_example_com",
              dbPassword := "AAAAAAAAAAAAAAAAAAAAAAAAAAAAAAAA",
              sslRequested := true, sslEnabled := false }) := by decide

set_option maxRecDepth 100000 in
/-- Claim C4 (counterexample): re-running against a fully provisioned host
(every pre-check reports the tool present, every command exits 0), stage 9
never probes whether the application is already initialized — no issued
command mentions `is-installed` — and it re-issues `wp core install`,
reporting "WordPress installed successfully" rather than an already-installed
message. -/
theorem claim_C4_counterexample :
    wpCoreInstallCmd d0 ∈ (installWordPress okHost rng0 site0 22 ⟨[], []⟩).2.cmds ∧
    (∀ c ∈ (installWordPress okHost rng0 site0 22 ⟨[], []⟩).2.cmds,
      listContainsSub "is-installed".data c.data = false) ∧
    ⟨"wp-install", "completed", "WordPress installed successfully", none⟩ ∈
      (installWordPress okHost rng0 site0 22 ⟨[], []⟩).2.events := by decide

set_option maxRecDepth 100000 in
/-- Claim C4 (amended): on the fully provisioned host the run succeeds; the
pre-checked stages 2, 3 and 9 skip their install sub-steps (no nginx, mariadb,
ufw or WP-CLI download commands are issued), stages 1-4 complete without any
failed event, and stage 9 unconditionally re-issues `wp core install`
(relying on that command's own semantics for idempotence) and reports
"WordPress installed successfully". -/
theorem claim_C4_amended :
    (installWordPress okHost rng0 site0 22 ⟨[], []⟩).1 = Except.ok resOk0 ∧
    nginxInstallCmd ∉ (installWordPress okHost rng0 site0 22 ⟨[], []⟩).2.cmds ∧
    mariadbInstallCmd ∉ (installWordPress okHost rng0 site0 22 ⟨[], []⟩).2.cmds ∧
    ufwInstallCmd ∉ (installWordPress okHost rng0 site0 22 ⟨[], []⟩).2.cmds ∧
    wpCliDlCmd ∉ (installWordPress okHost rng0 site0 22 ⟨[], []⟩).2.cmds ∧
    (∀ e ∈ (installWordPress okHost rng0 site0 22 ⟨[], []⟩).2.events, e.status ≠ "failed") ∧
    ⟨"system-update", "completed", "System packages updated", none⟩ ∈
      (installWordPress okHost rng0 site0 22 ⟨[], []⟩).2.events ∧
    ⟨"nginx", "completed", "Nginx installed and running", none⟩ ∈
      (installWordPress okHost rng0 site0 22 ⟨[], []⟩).2.events ∧
    ⟨"database", "completed", "MariaDB installed and running", none⟩ ∈
      (installWordPress okHost rng0 site0 22 ⟨[], []⟩).2.events ∧
    ⟨"php", "completed", "PHP 8.3 installed with extensions", none⟩ ∈
      (installWordPress okHost rng0 site0 22 ⟨[], []⟩).2.events ∧
    wpCoreInstallCmd d0 ∈ (installWordPress okHost rng0 site0 22 ⟨[], []⟩).2.cmds ∧
    ⟨"wp-install", "completed", "WordPress installed successfully", none⟩ ∈
      (installWordPress okHost rng0 site0 22 ⟨[], []⟩).2.events := by decide

set_option maxRecDepth 100000 in
/-- Claim C6 (counterexample): the fastcgi snippet is present, the rendered
configuration is written once, and the single `nginx -t` validation fails —
the run aborts immediately with the validation failure: no second rendering
and no re-validation ever happen, contrary to the claimed retry. -/
theorem claim_C6_counterexample :
    (installWordPress hostNginxTestFail rng0 site0 22 ⟨[], []⟩).1 =
      Except.ok (failResult "Nginx configuration test failed: nginx: test failed") ∧
    (installWordPress hostNginxTestFail rng0 site0 22 ⟨[], []⟩).2.cmds.countP
      (fun c => c == nginxTestCmd) = 1 ∧
    (installWordPress hostNginxTestFail rng0 site0 22 ⟨[], []⟩).2.cmds.getLast? =
      some nginxTestCmd ∧
    (installWordPress hostNginxTestFail rng0 site0 22 ⟨[], []⟩).2.cmds.countP
      (fun c => c == writeNginxCmd d0 true || c == writeNginxCmd d0 false) = 1 := by decide

set_option maxRecDepth 100000 in
/-- Claim C6 (amended): the fallback is chosen *before* validation, not by
retrying: the snippet presence probe (`test -f …fastcgi-php.conf`) picks the
snippet rendering when present and the inline-equivalent rendering when
absent; the configuration is written once, `nginx -t` runs once, and its first
failure aborts the run. -/
theorem claim_C6_amended :
    ((installWordPress hostNginxTestFail rng0 site0 22 ⟨[], []⟩).1 =
       Except.ok (failResult "Nginx configuration test failed: nginx: test failed") ∧
     (installWordPress hostNginxTestFail rng0 site0 22 ⟨[], []⟩).2.cmds.countP
       (fun c => c == nginxTestCmd) = 1 ∧
     writeNginxCmd d0 true ∈ (installWordPress hostNginxTestFail rng0 site0 22 ⟨[], []⟩).2.cmds ∧
     writeNginxCmd d0 false ∉
       (installWordPress hostNginxTestFail rng0 site0 22 ⟨[], []⟩).2.cmds) ∧
    ((installWordPress hostNoSnippet rng0 site0 22 ⟨[], []⟩).1 = Except.ok resOk0 ∧
     writeNginxCmd d0 false ∈ (installWordPress hostNoSnippet rng0 site0 22 ⟨[], []⟩).2.cmds ∧
     writeNginxCmd d0 true ∉ (installWordPress hostNoSnippet rng0 site0 22 ⟨[], []⟩).2.cmds) := by
  decide
